import Mathlib

/-!
Verification of the syscall boundary of the Gear sandbox backend.

This development shallowly embeds `core-backend/sandbox/src/funcs.rs`
(argument codec, error taxonomy, syscall handler set) and
`utils/node-loader/src/batch_pool/context.rs`.  Parts of the repository
that the handlers consume but whose sources are not available here
(the `Runtime` memory-access contract, the extension interface, and the
error-processing combinators) are modelled from the specification and
marked as such in their doc comments.
-/

set_option maxHeartbeats 1000000
set_option maxRecDepth 8000

/-- Stack values of the sandbox calling convention (sp_sandbox::Value):
    tagged union over 32/64-bit integers and floats. -/
inductive Value where
  | I32 (v : Int)
  | I64 (v : Int)
  | F32 (bits : Nat)
  | F64 (bits : Nat)
deriving DecidableEq, Repr

/-- Return value of a host function (sp_sandbox::ReturnValue). -/
inductive ReturnValue where
  | Unit
  | Value (v : Value)
deriving DecidableEq, Repr

/-- The payload-free sandbox-level trap signal (sp_sandbox::HostError). -/
inductive HostError where
  | mk
deriving DecidableEq, Repr

/-- funcs.rs: `type SyscallOutput = Result<ReturnValue, HostError>`. -/
abbrev SyscallOutput := Except HostError ReturnValue

/-- Identifier of an actor/program: 32 bytes read from and written to guest memory
    verbatim as bytes. -/
abbrev ProgramId := List Nat

/-- Identifier of a message: 32 bytes. -/
abbrev MessageId := List Nat

/-- Modelled from the spec: gear_backend_common::TrapExplanation; only the
    `Other` variant is produced by the embedded file. -/
inductive TrapExplanation where
  | Other (s : String)
deriving DecidableEq, Repr

/-- gear_backend_common::TerminationReason. -/
inductive TerminationReason where
  | Exit (dest : ProgramId)
  | Leave
  | Wait (duration : Option Nat)
  | GasAllowanceExceeded
  | Trap (e : TrapExplanation)
deriving DecidableEq, Repr

/-- funcs.rs: `FuncError<E>`.  Payloads of wrapped lower-level error types
    (RuntimeCtxError, MemoryError, PayloadSizeError, RuntimeBufferSizeError,
    FromUtf8Error) live outside the embedded file and are represented by
    their Display strings.  The `Range<usize>` payload of ReadWrongRange is
    flattened into its two endpoints. -/
inductive FuncError (E : Type) where
  | Core (e : E)
  | RuntimeCtx (s : String)
  | Memory (s : String)
  | PayloadSize (s : String)
  | RuntimeBufferSize (s : String)
  | SetU128 (s : String)
  | NonReplyExitCode
  | NoReplyContext
  | DebugString (s : String)
  | SyscallErrorExpected
  | Terminated (r : TerminationReason)
  | ReadWrongRange (start stop : Nat) (size : Nat)
  | ReadLenOverflow (a len : Nat)
deriving DecidableEq, Repr

/-- Debug rendering of a termination reason, used only by the Display of
    FuncError.Terminated (the Debug formats of the surrounding id types are
    external; this rendering stands in and is irrelevant to every claim,
    since into_termination_reason never displays the Terminated variant). -/
def TerminationReason.debugStr : TerminationReason → String
  | .Exit d => "Exit(" ++ toString d ++ ")"
  | .Leave => "Leave"
  | .Wait none => "Wait(None)"
  | .Wait (some n) => "Wait(Some(" ++ toString n ++ "))"
  | .GasAllowanceExceeded => "GasAllowanceExceeded"
  | .Trap (.Other s) => "Trap(Other(" ++ s ++ "))"

/-- Display of FuncError, following the derive_more format attributes in
    funcs.rs; `dispE` is the Display instance of the core error type. -/
def FuncError.display {E : Type} (dispE : E → String) : FuncError E → String
  | .Core e => dispE e
  | .RuntimeCtx s => s
  | .Memory s => s
  | .PayloadSize s => s
  | .RuntimeBufferSize s => s
  | .SetU128 s => "Cannot set u128: " ++ s
  | .NonReplyExitCode => "Exit code ran into non-reply scenario"
  | .NoReplyContext => "Not running in reply context"
  | .DebugString s => "Failed to parse debug string: " ++ s
  | .SyscallErrorExpected => "`gr_error` expects error occurred earlier"
  | .Terminated r => "Terminated: " ++ r.debugStr
  | .ReadWrongRange a b size =>
      "Cannot take data by indexes " ++ toString a ++ ".." ++ toString b ++
        " from message with size " ++ toString size
  | .ReadLenOverflow a len =>
      "Overflow at " ++ toString a ++ " + len " ++ toString len ++ " in `gr_read`"

/-- funcs.rs: `FuncError::into_termination_reason`. -/
def FuncError.into_termination_reason {E : Type} (dispE : E → String) :
    FuncError E → TerminationReason
  | .Terminated reason => reason
  | e => .Trap (.Other (e.display dispE))

/-- Whether a FuncError is the `Terminated` variant. -/
def FuncError.isTerminated {E : Type} : FuncError E → Bool
  | .Terminated _ => true
  | _ => false

/-- funcs.rs: `pop_i32` — consume the next stack value off the argument
    cursor, require the I32 tag, and convert via the `TryFrom<i32>` instance
    of the target type (passed here as an explicit conversion function);
    any failure is the raw sandbox-level HostError. -/
def pop_i32 {T : Type} (conv : Int → Option T) (arg : List Value) :
    Except HostError (T × List Value) :=
  match arg with
  | Value.I32 v :: rest =>
    match conv v with
    | some t => .ok (t, rest)
    | none => .error HostError.mk
  | _ => .error HostError.mk

/-- funcs.rs: `pop_i64` — as pop_i32 but for the I64 tag. -/
def pop_i64 {T : Type} (conv : Int → Option T) (arg : List Value) :
    Except HostError (T × List Value) :=
  match arg with
  | Value.I64 v :: rest =>
    match conv v with
    | some t => .ok (t, rest)
    | none => .error HostError.mk
  | _ => .error HostError.mk

/-- Conversion `TryFrom<i32>` into u32/usize: succeeds exactly on non-negative values. -/
def convI32U32 (v : Int) : Option Nat := if v < 0 then none else some v.toNat

/-- Conversion `TryFrom<i64>` into u64: succeeds exactly on non-negative values. -/
def convI64U64 (v : Int) : Option Nat := if v < 0 then none else some v.toNat

/-- funcs.rs: `return_i32` applied to an unsigned host value (u32/usize):
    `TryInto<i32>` fails on values of at least 2^31, as the raw HostError. -/
def return_i32 (n : Nat) : SyscallOutput :=
  if n < 2 ^ 31 then .ok (.Value (.I32 (Int.ofNat n))) else .error HostError.mk

/-- funcs.rs: `return_i64` applied to an unsigned host value (u64). -/
def return_i64 (n : Nat) : SyscallOutput :=
  if n < 2 ^ 63 then .ok (.Value (.I64 (Int.ofNat n))) else .error HostError.mk

/-- Wrapping cast of a u32 to i32 (`as i32`). -/
def u32toI32 (n : Nat) : Int :=
  if n % 2 ^ 32 < 2 ^ 31 then Int.ofNat (n % 2 ^ 32)
  else Int.ofNat (n % 2 ^ 32) - 2 ^ 32

/-- Modelled from the spec: the core error type `E::Error` of the extension
    interface, seen by the embedded file only through the
    AsTerminationReason capability, the forbidden_function constructor and
    Display. -/
inductive CoreErr where
  | gasAllowanceExceeded
  | terminationOther (r : TerminationReason)
  | forbidden
  | other (s : String)
deriving DecidableEq, Repr

/-- Modelled from the spec: `AsTerminationReason::as_termination_reason`. -/
def CoreErr.asTerminationReason : CoreErr → Option TerminationReason
  | .gasAllowanceExceeded => some .GasAllowanceExceeded
  | .terminationOther r => some r
  | _ => none

/-- The concrete FuncError instantiation the handlers use. -/
abbrev FErr := FuncError CoreErr

/-- Modelled from the spec: outcome of an outgoing-message extension
    operation after error classification (design note: model as
    `Dispatched(id) | Rejected(description)`, with a third short-circuit for
    non-domain core errors that trap).  The rejected description is the
    SCALE-encoded error that the guest later retrieves via the `error`
    syscall. -/
inductive ExtOutcome (A : Type) where
  | success (a : A)
  | domainFail (desc : List Nat)
  | coreErr (e : CoreErr)
deriving DecidableEq, Repr

/-- gear_core::message::HandlePacket. -/
structure HandlePacket where
  destination : ProgramId
  payload : List Nat
  gas_limit : Option Nat
  value : Nat
deriving DecidableEq, Repr

/-- HandlePacket::new. -/
def HandlePacket.new (d : ProgramId) (p : List Nat) (v : Nat) : HandlePacket :=
  ⟨d, p, none, v⟩

/-- HandlePacket::new_with_gas. -/
def HandlePacket.new_with_gas (d : ProgramId) (p : List Nat) (g v : Nat) :
    HandlePacket := ⟨d, p, some g, v⟩

/-- gear_core::message::ReplyPacket. -/
structure ReplyPacket where
  payload : List Nat
  gas_limit : Option Nat
  value : Nat
deriving DecidableEq, Repr

/-- ReplyPacket::new. -/
def ReplyPacket.new (p : List Nat) (v : Nat) : ReplyPacket := ⟨p, none, v⟩

/-- ReplyPacket::new_with_gas. -/
def ReplyPacket.new_with_gas (p : List Nat) (g v : Nat) : ReplyPacket :=
  ⟨p, some g, v⟩

/-- gear_core::message::InitPacket. -/
structure InitPacket where
  code_id : List Nat
  salt : List Nat
  payload : List Nat
  gas_limit : Option Nat
  value : Nat
deriving DecidableEq, Repr

/-- InitPacket::new. -/
def InitPacket.new (c s p : List Nat) (v : Nat) : InitPacket :=
  ⟨c, s, p, none, v⟩

/-- InitPacket::new_with_gas. -/
def InitPacket.new_with_gas (c s p : List Nat) (g v : Nat) : InitPacket :=
  ⟨c, s, p, some g, v⟩

/-- Modelled from the spec: the extension capability interface
    (gear_core::env::Ext plus the error-classification view; the source
    name Ext is taken by an unrelated Mathlib declaration), represented
    as the response each operation gives for this invocation, together
    with the recorded last domain-error description that the `error`
    syscall retrieves. -/
structure GearExt where
  lastError : Option (List Nat)
  send : HandlePacket → Nat → ExtOutcome MessageId
  sendCommit : Nat → HandlePacket → Nat → ExtOutcome MessageId
  sendInit : ExtOutcome Nat
  sendPush : Nat → List Nat → ExtOutcome Unit
  reply : ReplyPacket → Nat → ExtOutcome MessageId
  replyCommit : ReplyPacket → Nat → ExtOutcome MessageId
  replyPush : List Nat → ExtOutcome Unit
  createProgram : InitPacket → Nat → ExtOutcome ProgramId
  read : Except CoreErr (List Nat)
  size : Except CoreErr Nat
  exit : Except CoreErr Unit
  exitCode : Except CoreErr (Option Int)
  gas : Nat → Except CoreErr Unit
  allocPages : Nat → Except String Nat
  free : Nat → Except CoreErr Unit
  blockHeight : Except CoreErr Nat
  blockTimestamp : Except CoreErr Nat
  origin : Except CoreErr ProgramId
  replyTo : Except CoreErr (Option MessageId)
  debug : List Nat → Except CoreErr Unit
  gasAvailable : Except CoreErr Nat
  msgId : Except CoreErr MessageId
  programId : Except CoreErr ProgramId
  source : Except CoreErr ProgramId
  value : Except CoreErr Nat
  valueAvailable : Except CoreErr Nat
  leave : Except CoreErr Unit
  wait : Except CoreErr Unit
  waitFor : Nat → Except CoreErr Unit
  waitUpTo : Nat → Except CoreErr Unit
  wake : MessageId → Nat → Except CoreErr Unit

/-- Modelled from the spec: the per-call runtime context (runtime.rs is not
    among the sources here): the extension, guest linear memory as a byte
    list, and the trap-context slot, `none` meaning unwritten. -/
structure Runtime where
  ext : GearExt
  memory : List Nat
  err : Option FErr

/-- Byte slice `[ptr, ptr+len)` of guest memory. -/
def memSlice (mem : List Nat) (ptr len : Nat) : List Nat := (mem.drop ptr).take len

/-- Overwrite memory at `ptr` with the given bytes. -/
def writeBytes (mem : List Nat) (ptr : Nat) (bs : List Nat) : List Nat :=
  mem.take ptr ++ bs ++ mem.drop (ptr + bs.length)

/-- Modelled from the spec: the memory-access error a handler propagates as
    FuncError::RuntimeCtx. -/
def memOOB : FErr := .RuntimeCtx "memory access out of bounds"

/-- Modelled from the spec: `Runtime::read_memory` — bounds-checked copy of
    `len` bytes at `ptr`. -/
def Runtime.read_memory (ctx : Runtime) (ptr len : Nat) : Except FErr (List Nat) :=
  if ptr + len ≤ ctx.memory.length then .ok (memSlice ctx.memory ptr len)
  else .error memOOB

/-- Little-endian byte decoding of fixed-layout unsigned values. -/
def bytesToNatLE : List Nat → Nat
  | [] => 0
  | b :: rest => b + 256 * bytesToNatLE rest

/-- Little-endian byte encoding (`to_le_bytes` / SCALE of fixed-width ints). -/
def natToLEBytes : Nat → Nat → List Nat
  | 0, _ => []
  | k + 1, n => n % 256 :: natToLEBytes k (n / 256)

/-- Modelled from the spec: `Runtime::read_memory_as` for 32-byte ids, read
    verbatim. -/
def Runtime.read_memory_as_id (ctx : Runtime) (ptr : Nat) : Except FErr (List Nat) :=
  ctx.read_memory ptr 32

/-- Modelled from the spec: `Runtime::read_memory_as` for u32. -/
def Runtime.read_memory_as_u32 (ctx : Runtime) (ptr : Nat) : Except FErr Nat :=
  (ctx.read_memory ptr 4).map bytesToNatLE

/-- Modelled from the spec: `Runtime::read_memory_as` for u128. -/
def Runtime.read_memory_as_u128 (ctx : Runtime) (ptr : Nat) : Except FErr Nat :=
  (ctx.read_memory ptr 16).map bytesToNatLE

/-- Modelled from the spec: `Runtime::write_output` — bounds-checked copy
    into guest memory. -/
def Runtime.write_output (ctx : Runtime) (ptr : Nat) (bs : List Nat) :
    Except FErr Runtime :=
  if ptr + bs.length ≤ ctx.memory.length then
    .ok { ctx with memory := writeBytes ctx.memory ptr bs }
  else .error memOOB

/-- Modelled from the spec: `Runtime::write_validated_output` — the producer
    computes a byte-slice view from the extension, and only that slice is
    written out. -/
def Runtime.write_validated_output (ctx : Runtime) (ptr : Nat)
    (producer : GearExt → Except FErr (List Nat)) : Except FErr Runtime := do
  let bs ← producer ctx.ext
  ctx.write_output ptr bs

/-- The u32 value stored little-endian at `ptr` (value of a successful
    `read_memory_as_u32`). -/
def memU32 (ctx : Runtime) (ptr : Nat) : Nat := bytesToNatLE (memSlice ctx.memory ptr 4)

/-- The u128 value stored little-endian at `ptr`. -/
def memU128 (ctx : Runtime) (ptr : Nat) : Nat := bytesToNatLE (memSlice ctx.memory ptr 16)

/-- Modelled from the spec: the configured maximum payload size
    (gear_core Payload limit). -/
def maxPayloadSize : Nat := 8 * 1024 * 1024

/-- Payload conversion `Vec<u8> → Payload` (`try_into`), failing with
    PayloadSizeError beyond the configured maximum. -/
def payloadTryInto (bs : List Nat) : Except FErr (List Nat) :=
  if bs.length ≤ maxPayloadSize then .ok bs
  else .error (.PayloadSize "Payload size limit exceeded")

/-- Modelled from the spec: the RuntimeBuffer size limit
    (gear_core::buffer::RuntimeBuffer). -/
def maxRuntimeBufferSize : Nat := 64 * 1024 * 1024

/-- Lift `map_err(FuncError::Core)` on an extension result. -/
def liftCore {A : Type} (r : Except CoreErr A) : Except FErr A :=
  r.mapError FuncError.Core

/-- Modelled from the spec: `process_error` followed by
    `error_len_on_success` — on success run the output writer and return
    status 0; on a domain failure record the encoded description as the
    last error and return its byte length; any other core error traps with
    FuncError::Core. -/
def processErrorLenOnSuccess {A : Type} (ctx : Runtime) (res : ExtOutcome A)
    (write : Runtime → A → Except FErr Runtime) : Except FErr (Runtime × Nat) :=
  match res with
  | .success a => (write ctx a).map (fun c => (c, 0))
  | .domainFail desc =>
      .ok ({ ctx with ext := { ctx.ext with lastError := some desc } }, desc.length)
  | .coreErr e => .error (.Core e)

/-- Modelled from the spec: `process_error` followed by `error_len` (no
    output is written on success). -/
def processErrorLen (ctx : Runtime) (res : ExtOutcome Unit) :
    Except FErr (Runtime × Nat) :=
  match res with
  | .success _ => .ok (ctx, 0)
  | .domainFail desc =>
      .ok ({ ctx with ext := { ctx.ext with lastError := some desc } }, desc.length)
  | .coreErr e => .error (.Core e)

/-- Shared tail of the handler template: on a body failure, store the
    structured error in the trap context and signal the trap. -/
def runFallible (ctx : Runtime) (r : Except FErr (Runtime × ReturnValue)) :
    Runtime × SyscallOutput :=
  match r with
  | .ok (ctx2, rv) => (ctx2, .ok rv)
  | .error e => ({ ctx with err := some e }, .error HostError.mk)

/-- The handler template of funcs.rs: decode fixed-arity arguments (raw
    HostError with no trap payload on failure, context untouched), then run
    the fallible body through `runFallible`. -/
def mkHandler {α : Type} (dec : List Value → Except HostError α)
    (body : Runtime → α → Except FErr (Runtime × ReturnValue)) :
    Runtime → List Value → Runtime × SyscallOutput :=
  fun ctx args =>
    match dec args with
    | .error _ => (ctx, .error HostError.mk)
    | .ok a => runFallible ctx (body ctx a)

/-- One u32 argument (e.g. funcs.rs send_init: handle_ptr). -/
def decode1 (args : List Value) : Except HostError Nat := do
  let (a1, _) ← pop_i32 convI32U32 args
  pure a1

/-- Two u32 arguments. -/
def decode2 (args : List Value) : Except HostError (Nat × Nat) := do
  let (a1, r1) ← pop_i32 convI32U32 args
  let (a2, _) ← pop_i32 convI32U32 r1
  pure (a1, a2)

/-- Three u32 arguments. -/
def decode3 (args : List Value) : Except HostError (Nat × Nat × Nat) := do
  let (a1, r1) ← pop_i32 convI32U32 args
  let (a2, r2) ← pop_i32 convI32U32 r1
  let (a3, _) ← pop_i32 convI32U32 r2
  pure (a1, a2, a3)

/-- Five u32 arguments. -/
def decode5 (args : List Value) : Except HostError (Nat × Nat × Nat × Nat × Nat) := do
  let (a1, r1) ← pop_i32 convI32U32 args
  let (a2, r2) ← pop_i32 convI32U32 r1
  let (a3, r3) ← pop_i32 convI32U32 r2
  let (a4, r4) ← pop_i32 convI32U32 r3
  let (a5, _) ← pop_i32 convI32U32 r4
  pure (a1, a2, a3, a4, a5)

/-- Six u32 arguments (funcs.rs send). -/
def decode6 (args : List Value) :
    Except HostError (Nat × Nat × Nat × Nat × Nat × Nat) := do
  let (a1, r1) ← pop_i32 convI32U32 args
  let (a2, r2) ← pop_i32 convI32U32 r1
  let (a3, r3) ← pop_i32 convI32U32 r2
  let (a4, r4) ← pop_i32 convI32U32 r3
  let (a5, r5) ← pop_i32 convI32U32 r4
  let (a6, _) ← pop_i32 convI32U32 r5
  pure (a1, a2, a3, a4, a5, a6)

/-- Eight u32 arguments (funcs.rs create_program). -/
def decode8 (args : List Value) :
    Except HostError (Nat × Nat × Nat × Nat × Nat × Nat × Nat × Nat) := do
  let (a1, r1) ← pop_i32 convI32U32 args
  let (a2, r2) ← pop_i32 convI32U32 r1
  let (a3, r3) ← pop_i32 convI32U32 r2
  let (a4, r4) ← pop_i32 convI32U32 r3
  let (a5, r5) ← pop_i32 convI32U32 r4
  let (a6, r6) ← pop_i32 convI32U32 r5
  let (a7, r7) ← pop_i32 convI32U32 r6
  let (a8, _) ← pop_i32 convI32U32 r7
  pure (a1, a2, a3, a4, a5, a6, a7, a8)

/-- funcs.rs send_wgas arguments: three u32, a u64 gas limit, three u32. -/
def decodeSendWgas (args : List Value) :
    Except HostError (Nat × Nat × Nat × Nat × Nat × Nat × Nat) := do
  let (a1, r1) ← pop_i32 convI32U32 args
  let (a2, r2) ← pop_i32 convI32U32 r1
  let (a3, r3) ← pop_i32 convI32U32 r2
  let (g, r4) ← pop_i64 convI64U64 r3
  let (a5, r5) ← pop_i32 convI32U32 r4
  let (a6, r6) ← pop_i32 convI32U32 r5
  let (a7, _) ← pop_i32 convI32U32 r6
  pure (a1, a2, a3, g, a5, a6, a7)

/-- funcs.rs send_commit_wgas arguments: three u32, a u64 gas limit, two u32. -/
def decodeSendCommitWgas (args : List Value) :
    Except HostError (Nat × Nat × Nat × Nat × Nat × Nat) := do
  let (a1, r1) ← pop_i32 convI32U32 args
  let (a2, r2) ← pop_i32 convI32U32 r1
  let (a3, r3) ← pop_i32 convI32U32 r2
  let (g, r4) ← pop_i64 convI64U64 r3
  let (a5, r5) ← pop_i32 convI32U32 r4
  let (a6, _) ← pop_i32 convI32U32 r5
  pure (a1, a2, a3, g, a5, a6)

/-- funcs.rs reply_wgas arguments: two u32, a u64 gas limit, three u32. -/
def decodeReplyWgas (args : List Value) :
    Except HostError (Nat × Nat × Nat × Nat × Nat × Nat) := do
  let (a1, r1) ← pop_i32 convI32U32 args
  let (a2, r2) ← pop_i32 convI32U32 r1
  let (g, r3) ← pop_i64 convI64U64 r2
  let (a4, r4) ← pop_i32 convI32U32 r3
  let (a5, r5) ← pop_i32 convI32U32 r4
  let (a6, _) ← pop_i32 convI32U32 r5
  pure (a1, a2, g, a4, a5, a6)

/-- funcs.rs reply_commit_wgas arguments: a u64 gas limit, three u32. -/
def decodeReplyCommitWgas (args : List Value) :
    Except HostError (Nat × Nat × Nat × Nat) := do
  let (g, r1) ← pop_i64 convI64U64 args
  let (a2, r2) ← pop_i32 convI32U32 r1
  let (a3, r3) ← pop_i32 convI32U32 r2
  let (a4, _) ← pop_i32 convI32U32 r3
  pure (g, a2, a3, a4)

/-- funcs.rs create_program_wgas arguments: five u32, a u64 gas limit,
    three u32. -/
def decodeCreateProgramWgas (args : List Value) :
    Except HostError (Nat × Nat × Nat × Nat × Nat × Nat × Nat × Nat × Nat) := do
  let (a1, r1) ← pop_i32 convI32U32 args
  let (a2, r2) ← pop_i32 convI32U32 r1
  let (a3, r3) ← pop_i32 convI32U32 r2
  let (a4, r4) ← pop_i32 convI32U32 r3
  let (a5, r5) ← pop_i32 convI32U32 r4
  let (g, r6) ← pop_i64 convI64U64 r5
  let (a7, r7) ← pop_i32 convI32U32 r6
  let (a8, r8) ← pop_i32 convI32U32 r7
  let (a9, _) ← pop_i32 convI32U32 r8
  pure (a1, a2, a3, a4, a5, g, a7, a8, a9)

/-- funcs.rs: FuncsHandler::send. -/
def FuncsHandler.send : Runtime → List Value → Runtime × SyscallOutput :=
  mkHandler decode6 fun ctx a =>
    match a with
    | (program_id_ptr, payload_ptr, payload_len, value_ptr, message_id_ptr, delay_ptr) => do
      let dest ← ctx.read_memory_as_id program_id_ptr
      let payloadRaw ← ctx.read_memory payload_ptr payload_len
      let payload ← payloadTryInto payloadRaw
      let value ← ctx.read_memory_as_u128 value_ptr
      let delay ← ctx.read_memory_as_u32 delay_ptr
      let (ctx2, code) ← processErrorLenOnSuccess ctx
        (ctx.ext.send (HandlePacket.new dest payload value) delay)
        (fun c message_id => c.write_output message_id_ptr message_id)
      pure (ctx2, ReturnValue.Value (Value.I32 (u32toI32 code)))

/-- funcs.rs: FuncsHandler::send_wgas. -/
def FuncsHandler.send_wgas : Runtime → List Value → Runtime × SyscallOutput :=
  mkHandler decodeSendWgas fun ctx a =>
    match a with
    | (program_id_ptr, payload_ptr, payload_len, gas_limit, value_ptr,
        message_id_ptr, delay_ptr) => do
      let dest ← ctx.read_memory_as_id program_id_ptr
      let payloadRaw ← ctx.read_memory payload_ptr payload_len
      let payload ← payloadTryInto payloadRaw
      let value ← ctx.read_memory_as_u128 value_ptr
      let delay ← ctx.read_memory_as_u32 delay_ptr
      let (ctx2, code) ← processErrorLenOnSuccess ctx
        (ctx.ext.send (HandlePacket.new_with_gas dest payload gas_limit value) delay)
        (fun c message_id => c.write_output message_id_ptr message_id)
      pure (ctx2, ReturnValue.Value (Value.I32 (u32toI32 code)))

/-- funcs.rs: FuncsHandler::send_commit. -/
def FuncsHandler.send_commit : Runtime → List Value → Runtime × SyscallOutput :=
  mkHandler decode5 fun ctx a =>
    match a with
    | (handle_ptr, message_id_ptr, program_id_ptr, value_ptr, delay_ptr) => do
      let dest ← ctx.read_memory_as_id program_id_ptr
      let value ← ctx.read_memory_as_u128 value_ptr
      let delay ← ctx.read_memory_as_u32 delay_ptr
      let (ctx2, code) ← processErrorLenOnSuccess ctx
        (ctx.ext.sendCommit handle_ptr (HandlePacket.new dest [] value) delay)
        (fun c message_id => c.write_output message_id_ptr message_id)
      pure (ctx2, ReturnValue.Value (Value.I32 (u32toI32 code)))

/-- funcs.rs: FuncsHandler::send_commit_wgas. -/
def FuncsHandler.send_commit_wgas : Runtime → List Value → Runtime × SyscallOutput :=
  mkHandler decodeSendCommitWgas fun ctx a =>
    match a with
    | (handle_ptr, message_id_ptr, program_id_ptr, gas_limit, value_ptr, delay_ptr) => do
      let dest ← ctx.read_memory_as_id program_id_ptr
      let value ← ctx.read_memory_as_u128 value_ptr
      let delay ← ctx.read_memory_as_u32 delay_ptr
      let (ctx2, code) ← processErrorLenOnSuccess ctx
        (ctx.ext.sendCommit handle_ptr
          (HandlePacket.new_with_gas dest [] gas_limit value) delay)
        (fun c message_id => c.write_output message_id_ptr message_id)
      pure (ctx2, ReturnValue.Value (Value.I32 (u32toI32 code)))

/-- funcs.rs: FuncsHandler::send_init. -/
def FuncsHandler.send_init : Runtime → List Value → Runtime × SyscallOutput :=
  mkHandler decode1 fun ctx handle_ptr => do
    let (ctx2, code) ← processErrorLenOnSuccess ctx ctx.ext.sendInit
      (fun c handle => c.write_output handle_ptr (natToLEBytes 4 handle))
    pure (ctx2, ReturnValue.Value (Value.I32 (u32toI32 code)))

/-- funcs.rs: FuncsHandler::send_push. -/
def FuncsHandler.send_push : Runtime → List Value → Runtime × SyscallOutput :=
  mkHandler decode3 fun ctx a =>
    match a with
    | (handle_ptr, payload_ptr, payload_len) => do
      let payload ← ctx.read_memory payload_ptr payload_len
      let (ctx2, code) ← processErrorLen ctx (ctx.ext.sendPush handle_ptr payload)
      pure (ctx2, ReturnValue.Value (Value.I32 (u32toI32 code)))

/-- usize width: the checked_add of the read syscall operates on 64-bit
    machine words. -/
def USIZE : Nat := 2 ^ 64

/-- usize::checked_add. -/
def checkedAddUsize (a b : Nat) : Option Nat :=
  if a + b < USIZE then some (a + b) else none

/-- funcs.rs: FuncsHandler::read. -/
def FuncsHandler.read : Runtime → List Value → Runtime × SyscallOutput :=
  mkHandler decode3 fun ctx a =>
    match a with
    | (at_, len, dest) =>
      (ctx.write_validated_output dest (fun ext => do
        let msg ← liftCore ext.read
        let last_idx ← match checkedAddUsize at_ len with
          | some i => Except.ok i
          | none => Except.error (FuncError.ReadLenOverflow at_ len)
        if last_idx > msg.length then
          Except.error (FuncError.ReadWrongRange at_ last_idx msg.length)
        else
          Except.ok ((msg.drop at_).take (last_idx - at_)))).map
        (fun c => (c, ReturnValue.Unit))

/-- funcs.rs: FuncsHandler::reply. -/
def FuncsHandler.reply : Runtime → List Value → Runtime × SyscallOutput :=
  mkHandler decode5 fun ctx a =>
    match a with
    | (payload_ptr, payload_len, value_ptr, message_id_ptr, delay_ptr) => do
      let payloadRaw ← ctx.read_memory payload_ptr payload_len
      let payload ← payloadTryInto payloadRaw
      let value ← ctx.read_memory_as_u128 value_ptr
      let delay ← ctx.read_memory_as_u32 delay_ptr
      let (ctx2, code) ← processErrorLenOnSuccess ctx
        (ctx.ext.reply (ReplyPacket.new payload value) delay)
        (fun c message_id => c.write_output message_id_ptr message_id)
      pure (ctx2, ReturnValue.Value (Value.I32 (u32toI32 code)))

/-- funcs.rs: FuncsHandler::reply_wgas. -/
def FuncsHandler.reply_wgas : Runtime → List Value → Runtime × SyscallOutput :=
  mkHandler decodeReplyWgas fun ctx a =>
    match a with
    | (payload_ptr, payload_len, gas_limit, value_ptr, message_id_ptr, delay_ptr) => do
      let payloadRaw ← ctx.read_memory payload_ptr payload_len
      let payload ← payloadTryInto payloadRaw
      let value ← ctx.read_memory_as_u128 value_ptr
      let delay ← ctx.read_memory_as_u32 delay_ptr
      let (ctx2, code) ← processErrorLenOnSuccess ctx
        (ctx.ext.reply (ReplyPacket.new_with_gas payload gas_limit value) delay)
        (fun c message_id => c.write_output message_id_ptr message_id)
      pure (ctx2, ReturnValue.Value (Value.I32 (u32toI32 code)))

/-- funcs.rs: FuncsHandler::reply_commit. -/
def FuncsHandler.reply_commit : Runtime → List Value → Runtime × SyscallOutput :=
  mkHandler decode3 fun ctx a =>
    match a with
    | (value_ptr, message_id_ptr, delay_ptr) => do
      let value ← ctx.read_memory_as_u128 value_ptr
      let delay ← ctx.read_memory_as_u32 delay_ptr
      let (ctx2, code) ← processErrorLenOnSuccess ctx
        (ctx.ext.replyCommit (ReplyPacket.new [] value) delay)
        (fun c message_id => c.write_output message_id_ptr message_id)
      pure (ctx2, ReturnValue.Value (Value.I32 (u32toI32 code)))

/-- funcs.rs: FuncsHandler::reply_commit_wgas. -/
def FuncsHandler.reply_commit_wgas : Runtime → List Value → Runtime × SyscallOutput :=
  mkHandler decodeReplyCommitWgas fun ctx a =>
    match a with
    | (gas_limit, value_ptr, message_id_ptr, delay_ptr) => do
      let value ← ctx.read_memory_as_u128 value_ptr
      let delay ← ctx.read_memory_as_u32 delay_ptr
      let (ctx2, code) ← processErrorLenOnSuccess ctx
        (ctx.ext.replyCommit (ReplyPacket.new_with_gas [] gas_limit value) delay)
        (fun c message_id => c.write_output message_id_ptr message_id)
      pure (ctx2, ReturnValue.Value (Value.I32 (u32toI32 code)))

/-- funcs.rs: FuncsHandler::reply_push. -/
def FuncsHandler.reply_push : Runtime → List Value → Runtime × SyscallOutput :=
  mkHandler decode2 fun ctx a =>
    match a with
    | (payload_ptr, payload_len) => do
      let payload ← ctx.read_memory payload_ptr payload_len
      let (ctx2, code) ← processErrorLen ctx (ctx.ext.replyPush payload)
      pure (ctx2, ReturnValue.Value (Value.I32 (u32toI32 code)))

/-- funcs.rs: FuncsHandler::create_program. -/
def FuncsHandler.create_program : Runtime → List Value → Runtime × SyscallOutput :=
  mkHandler decode8 fun ctx a =>
    match a with
    | (code_hash_ptr, salt_ptr, salt_len, payload_ptr, payload_len, value_ptr,
        program_id_ptr, delay_ptr) => do
      let code_hash ← ctx.read_memory_as_id code_hash_ptr
      let salt ← ctx.read_memory salt_ptr salt_len
      let payloadRaw ← ctx.read_memory payload_ptr payload_len
      let payload ← payloadTryInto payloadRaw
      let value ← ctx.read_memory_as_u128 value_ptr
      let delay ← ctx.read_memory_as_u32 delay_ptr
      let (ctx2, code) ← processErrorLenOnSuccess ctx
        (ctx.ext.createProgram (InitPacket.new code_hash salt payload value) delay)
        (fun c new_actor_id => c.write_output program_id_ptr new_actor_id)
      pure (ctx2, ReturnValue.Value (Value.I32 (u32toI32 code)))

/-- funcs.rs: FuncsHandler::create_program_wgas. -/
def FuncsHandler.create_program_wgas : Runtime → List Value → Runtime × SyscallOutput :=
  mkHandler decodeCreateProgramWgas fun ctx a =>
    match a with
    | (code_hash_ptr, salt_ptr, salt_len, payload_ptr, payload_len, gas_limit,
        value_ptr, program_id_ptr, delay_ptr) => do
      let code_hash ← ctx.read_memory_as_id code_hash_ptr
      let salt ← ctx.read_memory salt_ptr salt_len
      let payloadRaw ← ctx.read_memory payload_ptr payload_len
      let payload ← payloadTryInto payloadRaw
      let value ← ctx.read_memory_as_u128 value_ptr
      let delay ← ctx.read_memory_as_u32 delay_ptr
      let (ctx2, code) ← processErrorLenOnSuccess ctx
        (ctx.ext.createProgram
          (InitPacket.new_with_gas code_hash salt payload gas_limit value) delay)
        (fun c new_actor_id => c.write_output program_id_ptr new_actor_id)
      pure (ctx2, ReturnValue.Value (Value.I32 (u32toI32 code)))

/-- Is a byte a UTF-8 continuation byte. -/
def isCont (b : Nat) : Bool := 0x80 ≤ b && b ≤ 0xBF

/-- Modelled from the spec: validity check of `String::from_utf8` on the
    copied bytes (standard UTF-8 well-formedness). -/
def isValidUtf8 : List Nat → Bool
  | [] => true
  | b :: rest =>
    if b ≤ 0x7F then isValidUtf8 rest
    else if 0xC2 ≤ b && b ≤ 0xDF then
      match rest with
      | c1 :: r => isCont c1 && isValidUtf8 r
      | [] => false
    else if b == 0xE0 then
      match rest with
      | c1 :: c2 :: r => (0xA0 ≤ c1 && c1 ≤ 0xBF) && isCont c2 && isValidUtf8 r
      | _ => false
    else if (0xE1 ≤ b && b ≤ 0xEC) || (0xEE ≤ b && b ≤ 0xEF) then
      match rest with
      | c1 :: c2 :: r => isCont c1 && isCont c2 && isValidUtf8 r
      | _ => false
    else if b == 0xED then
      match rest with
      | c1 :: c2 :: r => (0x80 ≤ c1 && c1 ≤ 0x9F) && isCont c2 && isValidUtf8 r
      | _ => false
    else if b == 0xF0 then
      match rest with
      | c1 :: c2 :: c3 :: r =>
          (0x90 ≤ c1 && c1 ≤ 0xBF) && isCont c2 && isCont c3 && isValidUtf8 r
      | _ => false
    else if 0xF1 ≤ b && b ≤ 0xF3 then
      match rest with
      | c1 :: c2 :: c3 :: r => isCont c1 && isCont c2 && isCont c3 && isValidUtf8 r
      | _ => false
    else if b == 0xF4 then
      match rest with
      | c1 :: c2 :: c3 :: r =>
          (0x80 ≤ c1 && c1 ≤ 0x8F) && isCont c2 && isCont c3 && isValidUtf8 r
      | _ => false
    else false

/-- Display string standing in for the RuntimeBufferSizeError. -/
def rbSizeErrMsg : String := "Runtime buffer size exceeded"

/-- Display string standing in for the FromUtf8Error. -/
def utf8ErrMsg : String := "invalid utf-8 sequence"

/-- funcs.rs: FuncsHandler::size. -/
def FuncsHandler.size (ctx : Runtime) (_args : List Value) :
    Runtime × SyscallOutput :=
  match ctx.ext.size with
  | .ok n => (ctx, return_i32 n)
  | .error e => ({ ctx with err := some (.Core e) }, .error HostError.mk)

/-- funcs.rs: FuncsHandler::exit — reads the beneficiary, invokes the
    extension hook (propagating its error with the question-mark operator),
    otherwise records Terminated(Exit(dest)); the handler always signals
    the trap. -/
def FuncsHandler.exit (ctx : Runtime) (args : List Value) :
    Runtime × SyscallOutput :=
  match pop_i32 convI32U32 args with
  | .error _ => (ctx, .error HostError.mk)
  | .ok (value_dest_ptr, _) =>
    let res : Except FErr Unit := do
      let value_dest ← ctx.read_memory_as_id value_dest_ptr
      let _ ← liftCore ctx.ext.exit
      throw (FuncError.Terminated (TerminationReason.Exit value_dest))
    match res with
    | .error e => ({ ctx with err := some e }, .error HostError.mk)
    | .ok _ => (ctx, .error HostError.mk)

/-- funcs.rs: FuncsHandler::exit_code. -/
def FuncsHandler.exit_code (ctx : Runtime) (_args : List Value) :
    Runtime × SyscallOutput :=
  match ctx.ext.exitCode with
  | .error e => ({ ctx with err := some (.Core e) }, .error HostError.mk)
  | .ok (some code) => (ctx, .ok (.Value (.I32 code)))
  | .ok none => ({ ctx with err := some .NonReplyExitCode }, .error HostError.mk)

/-- funcs.rs: FuncsHandler::gas — on an extension failure the trap context
    is written only when the core error is gas-allowance-exceeded. -/
def FuncsHandler.gas (ctx : Runtime) (args : List Value) :
    Runtime × SyscallOutput :=
  match pop_i32 convI32U32 args with
  | .error _ => (ctx, .error HostError.mk)
  | .ok (val, _) =>
    match ctx.ext.gas val with
    | .ok _ => (ctx, .ok ReturnValue.Unit)
    | .error e =>
      match e.asTerminationReason with
      | some TerminationReason.GasAllowanceExceeded =>
          ({ ctx with err := some (.Terminated .GasAllowanceExceeded) },
            .error HostError.mk)
      | _ => (ctx, .error HostError.mk)

/-- funcs.rs: FuncsHandler::alloc (Runtime::alloc delegates to the sandbox
    memory manager, modelled as an extension response; the page-table growth
    itself is outside this embedding). -/
def FuncsHandler.alloc (ctx : Runtime) (args : List Value) :
    Runtime × SyscallOutput :=
  match pop_i32 convI32U32 args with
  | .error _ => (ctx, .error HostError.mk)
  | .ok (pages, _) =>
    match ctx.ext.allocPages pages with
    | .ok page => (ctx, .ok (.Value (.I32 (u32toI32 page))))
    | .error s => ({ ctx with err := some (.RuntimeCtx s) }, .error HostError.mk)

/-- funcs.rs: FuncsHandler::free. -/
def FuncsHandler.free (ctx : Runtime) (args : List Value) :
    Runtime × SyscallOutput :=
  match pop_i32 convI32U32 args with
  | .error _ => (ctx, .error HostError.mk)
  | .ok (page, _) =>
    match ctx.ext.free page with
    | .error e => ({ ctx with err := some (.Core e) }, .error HostError.mk)
    | .ok _ => (ctx, .ok ReturnValue.Unit)

/-- funcs.rs: FuncsHandler::block_height. -/
def FuncsHandler.block_height (ctx : Runtime) (_args : List Value) :
    Runtime × SyscallOutput :=
  match ctx.ext.blockHeight with
  | .error e => ({ ctx with err := some (.Core e) }, .error HostError.mk)
  | .ok h => (ctx, return_i32 h)

/-- funcs.rs: FuncsHandler::block_timestamp. -/
def FuncsHandler.block_timestamp (ctx : Runtime) (_args : List Value) :
    Runtime × SyscallOutput :=
  match ctx.ext.blockTimestamp with
  | .error e => ({ ctx with err := some (.Core e) }, .error HostError.mk)
  | .ok t => (ctx, return_i64 t)

/-- funcs.rs: FuncsHandler::origin. -/
def FuncsHandler.origin : Runtime → List Value → Runtime × SyscallOutput :=
  mkHandler decode1 fun ctx origin_ptr => do
    let origin ← liftCore ctx.ext.origin
    let ctx2 ← ctx.write_output origin_ptr origin
    pure (ctx2, ReturnValue.Unit)

/-- funcs.rs: FuncsHandler::reply_to. -/
def FuncsHandler.reply_to (ctx : Runtime) (args : List Value) :
    Runtime × SyscallOutput :=
  match pop_i32 convI32U32 args with
  | .error _ => (ctx, .error HostError.mk)
  | .ok (dest, _) =>
    match ctx.ext.replyTo with
    | .error e => ({ ctx with err := some (.Core e) }, .error HostError.mk)
    | .ok (some id) =>
      match ctx.write_output dest id with
      | .ok ctx2 => (ctx2, .ok ReturnValue.Unit)
      | .error e => ({ ctx with err := some e }, .error HostError.mk)
    | .ok none => ({ ctx with err := some .NoReplyContext }, .error HostError.mk)

/-- funcs.rs: FuncsHandler::debug — allocate a RuntimeBuffer of the guest
    length (bounds-checked against the configured maximum), copy from guest
    memory, validate UTF-8, forward to the extension log sink. -/
def FuncsHandler.debug : Runtime → List Value → Runtime × SyscallOutput :=
  mkHandler decode2 fun ctx a =>
    match a with
    | (str_ptr, str_len) => do
      if str_len ≤ maxRuntimeBufferSize then do
        let data ← ctx.read_memory str_ptr str_len
        if isValidUtf8 data then do
          let _ ← liftCore (ctx.ext.debug data)
          pure (ctx, ReturnValue.Unit)
        else throw (FuncError.DebugString utf8ErrMsg)
      else throw (FuncError.RuntimeBufferSize rbSizeErrMsg)

/-- funcs.rs: FuncsHandler::gas_available — note that its failure path
    collapses the extension error into a bare HostError without writing the
    trap context. -/
def FuncsHandler.gas_available (ctx : Runtime) (_args : List Value) :
    Runtime × SyscallOutput :=
  match ctx.ext.gasAvailable with
  | .ok g => (ctx, return_i64 g)
  | .error _ => (ctx, .error HostError.mk)

/-- funcs.rs: FuncsHandler::msg_id. -/
def FuncsHandler.msg_id : Runtime → List Value → Runtime × SyscallOutput :=
  mkHandler decode1 fun ctx msg_id_ptr => do
    let message_id ← liftCore ctx.ext.msgId
    let ctx2 ← ctx.write_output msg_id_ptr message_id
    pure (ctx2, ReturnValue.Unit)

/-- funcs.rs: FuncsHandler::program_id. -/
def FuncsHandler.program_id : Runtime → List Value → Runtime × SyscallOutput :=
  mkHandler decode1 fun ctx program_id_ptr => do
    let program_id ← liftCore ctx.ext.programId
    let ctx2 ← ctx.write_output program_id_ptr program_id
    pure (ctx2, ReturnValue.Unit)

/-- funcs.rs: FuncsHandler::source. -/
def FuncsHandler.source (ctx : Runtime) (args : List Value) :
    Runtime × SyscallOutput :=
  match pop_i32 convI32U32 args with
  | .error _ => (ctx, .error HostError.mk)
  | .ok (source_ptr, _) =>
    match ctx.ext.source with
    | .ok src =>
      match ctx.write_output source_ptr src with
      | .ok ctx2 => (ctx2, .ok ReturnValue.Unit)
      | .error e => ({ ctx with err := some e }, .error HostError.mk)
    | .error e => ({ ctx with err := some (.Core e) }, .error HostError.mk)

/-- funcs.rs: FuncsHandler::value — writes the SCALE encoding of the u128
    (16 little-endian bytes). -/
def FuncsHandler.value : Runtime → List Value → Runtime × SyscallOutput :=
  mkHandler decode1 fun ctx value_ptr => do
    let value ← liftCore ctx.ext.value
    let ctx2 ← ctx.write_output value_ptr (natToLEBytes 16 value)
    pure (ctx2, ReturnValue.Unit)

/-- funcs.rs: FuncsHandler::value_available. -/
def FuncsHandler.value_available : Runtime → List Value → Runtime × SyscallOutput :=
  mkHandler decode1 fun ctx value_ptr => do
    let value_available ← liftCore ctx.ext.valueAvailable
    let ctx2 ← ctx.write_output value_ptr (natToLEBytes 16 value_available)
    pure (ctx2, ReturnValue.Unit)

/-- funcs.rs: FuncsHandler::leave — the trap context receives the extension
    error if there is one, and Terminated(Leave) otherwise; the handler
    always signals the trap. -/
def FuncsHandler.leave (ctx : Runtime) (_args : List Value) :
    Runtime × SyscallOutput :=
  let e := match ctx.ext.leave with
    | .error e => FuncError.Core e
    | .ok _ => FuncError.Terminated TerminationReason.Leave
  ({ ctx with err := some e }, .error HostError.mk)

/-- funcs.rs: FuncsHandler::wait. -/
def FuncsHandler.wait (ctx : Runtime) (_args : List Value) :
    Runtime × SyscallOutput :=
  let e := match ctx.ext.wait with
    | .error e => FuncError.Core e
    | .ok _ => FuncError.Terminated (TerminationReason.Wait none)
  ({ ctx with err := some e }, .error HostError.mk)

/-- funcs.rs: FuncsHandler::wait_for. -/
def FuncsHandler.wait_for (ctx : Runtime) (args : List Value) :
    Runtime × SyscallOutput :=
  match pop_i32 convI32U32 args with
  | .error _ => (ctx, .error HostError.mk)
  | .ok (duration_ptr, _) =>
    let f : Except FErr (Option Nat) := do
      let duration ← ctx.read_memory_as_u32 duration_ptr
      let _ ← liftCore (ctx.ext.waitFor duration)
      pure (some duration)
    let e := match f with
      | .ok duration => FuncError.Terminated (TerminationReason.Wait duration)
      | .error e => e
    ({ ctx with err := some e }, .error HostError.mk)

/-- funcs.rs: FuncsHandler::wait_up_to. -/
def FuncsHandler.wait_up_to (ctx : Runtime) (args : List Value) :
    Runtime × SyscallOutput :=
  match pop_i32 convI32U32 args with
  | .error _ => (ctx, .error HostError.mk)
  | .ok (duration_ptr, _) =>
    let f : Except FErr (Option Nat) := do
      let duration ← ctx.read_memory_as_u32 duration_ptr
      let _ ← liftCore (ctx.ext.waitUpTo duration)
      pure (some duration)
    let e := match f with
      | .ok duration => FuncError.Terminated (TerminationReason.Wait duration)
      | .error e => e
    ({ ctx with err := some e }, .error HostError.mk)

/-- funcs.rs: FuncsHandler::wake. -/
def FuncsHandler.wake : Runtime → List Value → Runtime × SyscallOutput :=
  mkHandler decode2 fun ctx a =>
    match a with
    | (waker_id_ptr, delay_ptr) => do
      let waker_id ← ctx.read_memory_as_id waker_id_ptr
      let delay ← ctx.read_memory_as_u32 delay_ptr
      let _ ← liftCore (ctx.ext.wake waker_id delay)
      pure (ctx, ReturnValue.Unit)

/-- funcs.rs: FuncsHandler::error — copy the last recorded domain-error
    description (already SCALE-encoded) to the guest; SyscallErrorExpected
    if none is on record. -/
def FuncsHandler.error : Runtime → List Value → Runtime × SyscallOutput :=
  mkHandler decode1 fun ctx data_ptr => do
    match ctx.ext.lastError with
    | none => throw FuncError.SyscallErrorExpected
    | some e => do
      let ctx2 ← ctx.write_output data_ptr e
      pure (ctx2, ReturnValue.Unit)

/-- funcs.rs: FuncsHandler::forbidden — unconditionally traps with the
    policy-violation core error E::Error::forbidden_function(). -/
def FuncsHandler.forbidden (ctx : Runtime) (_args : List Value) :
    Runtime × SyscallOutput :=
  ({ ctx with err := some (.Core CoreErr.forbidden) }, .error HostError.mk)

/-- Identifier of a code blob (32 bytes) in the node-loader context. -/
abbrev CodeId := List Nat

/-- batch_pool/context.rs: ContextUpdate (a BTreeSet is modelled as a
    Finset). -/
structure ContextUpdate where
  program_ids : Finset ProgramId
  codes : Finset CodeId

/-- batch_pool/context.rs: Context. -/
structure Context where
  programs : Finset ProgramId
  codes : Finset CodeId

/-- batch_pool/context.rs: Context::new. -/
def Context.new : Context := ⟨∅, ∅⟩

/-- batch_pool/context.rs: Context::update — BTreeSet::append moves the
    update sets into the context, i.e. the context sets become the unions. -/
def Context.update (c : Context) (u : ContextUpdate) : Context :=
  { programs := c.programs ∪ u.program_ids, codes := c.codes ∪ u.codes }

/-- The syscall dispatch table without the two gas accessors, which are the
    only handlers that can trap without writing the trap context after a
    successful argument decode. -/
def handlersNoGas : List (String × (Runtime → List Value → Runtime × SyscallOutput)) :=
  [("send", FuncsHandler.send),
   ("send_wgas", FuncsHandler.send_wgas),
   ("send_commit", FuncsHandler.send_commit),
   ("send_commit_wgas", FuncsHandler.send_commit_wgas),
   ("send_init", FuncsHandler.send_init),
   ("send_push", FuncsHandler.send_push),
   ("read", FuncsHandler.read),
   ("size", FuncsHandler.size),
   ("exit", FuncsHandler.exit),
   ("exit_code", FuncsHandler.exit_code),
   ("alloc", FuncsHandler.alloc),
   ("free", FuncsHandler.free),
   ("block_height", FuncsHandler.block_height),
   ("block_timestamp", FuncsHandler.block_timestamp),
   ("origin", FuncsHandler.origin),
   ("reply", FuncsHandler.reply),
   ("reply_wgas", FuncsHandler.reply_wgas),
   ("reply_commit", FuncsHandler.reply_commit),
   ("reply_commit_wgas", FuncsHandler.reply_commit_wgas),
   ("reply_to", FuncsHandler.reply_to),
   ("reply_push", FuncsHandler.reply_push),
   ("debug", FuncsHandler.debug),
   ("msg_id", FuncsHandler.msg_id),
   ("program_id", FuncsHandler.program_id),
   ("source", FuncsHandler.source),
   ("value", FuncsHandler.value),
   ("value_available", FuncsHandler.value_available),
   ("leave", FuncsHandler.leave),
   ("wait", FuncsHandler.wait),
   ("wait_for", FuncsHandler.wait_for),
   ("wait_up_to", FuncsHandler.wait_up_to),
   ("wake", FuncsHandler.wake),
   ("create_program", FuncsHandler.create_program),
   ("create_program_wgas", FuncsHandler.create_program_wgas),
   ("error", FuncsHandler.error),
   ("forbidden", FuncsHandler.forbidden)]

theorem excBind_ok {ε α β : Type} (a : α) (f : α → Except ε β) :
    (Except.ok a >>= f) = f a := rfl

theorem excBind_error {ε α β : Type} (e : ε) (f : α → Except ε β) :
    ((Except.error e : Except ε α) >>= f) = Except.error e := rfl

theorem excPure {ε α : Type} (a : α) : (pure a : Except ε α) = Except.ok a := rfl

theorem excMap_ok {ε α β : Type} (f : α → β) (a : α) :
    (Except.ok a : Except ε α).map f = Except.ok (f a) := rfl

theorem excMap_error {ε α β : Type} (f : α → β) (e : ε) :
    (Except.error e : Except ε α).map f = Except.error e := rfl

theorem excMapError_ok {ε δ α : Type} (f : ε → δ) (a : α) :
    (Except.ok a : Except ε α).mapError f = Except.ok a := rfl

theorem excMapError_error {ε δ α : Type} (f : ε → δ) (e : ε) :
    (Except.error e : Except ε α).mapError f = Except.error (f e) := rfl

theorem convI32U32_ofNat (n : Nat) : convI32U32 (n : Int) = some n := by
  unfold convI32U32
  rw [if_neg (by omega)]
  exact congrArg some (Int.toNat_natCast n)

theorem convI64U64_ofNat (n : Nat) : convI64U64 (n : Int) = some n := by
  unfold convI64U64
  rw [if_neg (by omega)]
  exact congrArg some (Int.toNat_natCast n)

theorem u32toI32_small {n : Nat} (h : n < 2 ^ 31) : u32toI32 n = Int.ofNat n := by
  have h2 : n % 2 ^ 32 = n := Nat.mod_eq_of_lt (by omega)
  simp only [u32toI32, h2, if_pos h]

theorem u32toI32_zero : u32toI32 0 = 0 := by decide

theorem memSlice_length {mem : List Nat} {ptr len : Nat}
    (h : ptr + len ≤ mem.length) : (memSlice mem ptr len).length = len := by
  simp only [memSlice, List.length_take, List.length_drop]
  omega

theorem read_memory_ok {ctx : Runtime} {ptr len : Nat}
    (h : ptr + len ≤ ctx.memory.length) :
    ctx.read_memory ptr len = .ok (memSlice ctx.memory ptr len) := by
  simp only [Runtime.read_memory, if_pos h]

theorem read_memory_as_id_ok {ctx : Runtime} {ptr : Nat}
    (h : ptr + 32 ≤ ctx.memory.length) :
    ctx.read_memory_as_id ptr = .ok (memSlice ctx.memory ptr 32) := by
  simp only [Runtime.read_memory_as_id, read_memory_ok h]

theorem read_memory_as_u32_ok {ctx : Runtime} {ptr : Nat}
    (h : ptr + 4 ≤ ctx.memory.length) :
    ctx.read_memory_as_u32 ptr = .ok (memU32 ctx ptr) := by
  simp only [Runtime.read_memory_as_u32, read_memory_ok h, excMap_ok, memU32]

theorem read_memory_as_u128_ok {ctx : Runtime} {ptr : Nat}
    (h : ptr + 16 ≤ ctx.memory.length) :
    ctx.read_memory_as_u128 ptr = .ok (memU128 ctx ptr) := by
  simp only [Runtime.read_memory_as_u128, read_memory_ok h, excMap_ok, memU128]

theorem write_output_ok {ctx : Runtime} {ptr : Nat} {bs : List Nat}
    (h : ptr + bs.length ≤ ctx.memory.length) :
    ctx.write_output ptr bs = .ok { ctx with memory := writeBytes ctx.memory ptr bs } := by
  simp only [Runtime.write_output, if_pos h]

theorem payloadTryInto_ok {bs : List Nat} (h : bs.length ≤ maxPayloadSize) :
    payloadTryInto bs = .ok bs := by
  simp only [payloadTryInto, if_pos h]

theorem pop_i32_ok_iff {T : Type} (conv : Int → Option T) (args : List Value)
    (t : T) (rest : List Value) :
    pop_i32 conv args = .ok (t, rest) ↔
      ∃ v, args = Value.I32 v :: rest ∧ conv v = some t := by
  cases args with
  | nil => simp [pop_i32]
  | cons hd tl =>
    cases hd with
    | I32 v =>
      cases hc : conv v with
      | some t2 =>
        simp only [pop_i32, hc, Except.ok.injEq, Prod.mk.injEq, List.cons.injEq,
          Value.I32.injEq]
        constructor
        · rintro ⟨rfl, rfl⟩; exact ⟨v, ⟨rfl, rfl⟩, hc⟩
        · rintro ⟨v2, ⟨rfl, rfl⟩, hc2⟩
          rw [hc] at hc2
          injection hc2 with h2
          exact ⟨h2, rfl⟩
      | none =>
        simp only [pop_i32, hc]
        constructor
        · intro h; cases h
        · rintro ⟨v2, ⟨rfl, rfl⟩, hc2⟩
          rw [hc] at hc2; cases hc2
    | I64 v => simp [pop_i32]
    | F32 b => simp [pop_i32]
    | F64 b => simp [pop_i32]

theorem pop_i32_error_iff {T : Type} (conv : Int → Option T) (args : List Value) :
    pop_i32 conv args = .error HostError.mk ↔
      args = [] ∨ (∃ v rest, args = Value.I32 v :: rest ∧ conv v = none) ∨
        (∃ hd rest, args = hd :: rest ∧ ∀ v, hd ≠ Value.I32 v) := by
  cases args with
  | nil => simp [pop_i32]
  | cons hd tl =>
    cases hd with
    | I32 v =>
      cases hc : conv v with
      | some t2 =>
        simp only [pop_i32, hc]
        constructor
        · intro h; cases h
        · rintro (h | ⟨v2, rest2, ⟨rfl, rfl⟩, hc2⟩ | ⟨hd2, rest2, ⟨rfl, rfl⟩, hne⟩)
          · cases h
          · rw [hc] at hc2; cases hc2
          · exact absurd rfl (hne v)
      | none =>
        simp only [pop_i32, hc, true_iff]
        exact Or.inr (Or.inl ⟨v, tl, rfl, hc⟩)
    | I64 v =>
      simp only [pop_i32, true_iff]
      exact Or.inr (Or.inr ⟨Value.I64 v, tl, rfl, fun v2 h => by cases h⟩)
    | F32 b =>
      simp only [pop_i32, true_iff]
      exact Or.inr (Or.inr ⟨Value.F32 b, tl, rfl, fun v2 h => by cases h⟩)
    | F64 b =>
      simp only [pop_i32, true_iff]
      exact Or.inr (Or.inr ⟨Value.F64 b, tl, rfl, fun v2 h => by cases h⟩)

theorem pop_i64_ok_iff {T : Type} (conv : Int → Option T) (args : List Value)
    (t : T) (rest : List Value) :
    pop_i64 conv args = .ok (t, rest) ↔
      ∃ v, args = Value.I64 v :: rest ∧ conv v = some t := by
  cases args with
  | nil => simp [pop_i64]
  | cons hd tl =>
    cases hd with
    | I64 v =>
      cases hc : conv v with
      | some t2 =>
        simp only [pop_i64, hc, Except.ok.injEq, Prod.mk.injEq, List.cons.injEq,
          Value.I64.injEq]
        constructor
        · rintro ⟨rfl, rfl⟩; exact ⟨v, ⟨rfl, rfl⟩, hc⟩
        · rintro ⟨v2, ⟨rfl, rfl⟩, hc2⟩
          rw [hc] at hc2
          injection hc2 with h2
          exact ⟨h2, rfl⟩
      | none =>
        simp only [pop_i64, hc]
        constructor
        · intro h; cases h
        · rintro ⟨v2, ⟨rfl, rfl⟩, hc2⟩
          rw [hc] at hc2; cases hc2
    | I32 v => simp [pop_i64]
    | F32 b => simp [pop_i64]
    | F64 b => simp [pop_i64]

theorem pop_i64_error_iff {T : Type} (conv : Int → Option T) (args : List Value) :
    pop_i64 conv args = .error HostError.mk ↔
      args = [] ∨ (∃ v rest, args = Value.I64 v :: rest ∧ conv v = none) ∨
        (∃ hd rest, args = hd :: rest ∧ ∀ v, hd ≠ Value.I64 v) := by
  cases args with
  | nil => simp [pop_i64]
  | cons hd tl =>
    cases hd with
    | I64 v =>
      cases hc : conv v with
      | some t2 =>
        simp only [pop_i64, hc]
        constructor
        · intro h; cases h
        · rintro (h | ⟨v2, rest2, ⟨rfl, rfl⟩, hc2⟩ | ⟨hd2, rest2, ⟨rfl, rfl⟩, hne⟩)
          · cases h
          · rw [hc] at hc2; cases hc2
          · exact absurd rfl (hne v)
      | none =>
        simp only [pop_i64, hc, true_iff]
        exact Or.inr (Or.inl ⟨v, tl, rfl, hc⟩)
    | I32 v =>
      simp only [pop_i64, true_iff]
      exact Or.inr (Or.inr ⟨Value.I32 v, tl, rfl, fun v2 h => by cases h⟩)
    | F32 b =>
      simp only [pop_i64, true_iff]
      exact Or.inr (Or.inr ⟨Value.F32 b, tl, rfl, fun v2 h => by cases h⟩)
    | F64 b =>
      simp only [pop_i64, true_iff]
      exact Or.inr (Or.inr ⟨Value.F64 b, tl, rfl, fun v2 h => by cases h⟩)

theorem gas_decode_fail_unchanged (ctx : Runtime) (args : List Value)
    (h : pop_i32 convI32U32 args = .error HostError.mk) :
    FuncsHandler.gas ctx args = (ctx, .error HostError.mk) := by
  unfold FuncsHandler.gas
  rw [h]

/-- A benign extension instance used for concrete evaluations. -/
def extOk : GearExt where
  lastError := none
  send := fun _ _ => .success (List.replicate 32 1)
  sendCommit := fun _ _ _ => .success (List.replicate 32 1)
  sendInit := .success 1
  sendPush := fun _ _ => .success ()
  reply := fun _ _ => .success (List.replicate 32 2)
  replyCommit := fun _ _ => .success (List.replicate 32 2)
  replyPush := fun _ => .success ()
  createProgram := fun _ _ => .success (List.replicate 32 3)
  read := .ok [1, 2, 3, 4, 5]
  size := .ok 5
  exit := .ok ()
  exitCode := .ok (some 0)
  gas := fun _ => .ok ()
  allocPages := fun _ => .ok 1
  free := fun _ => .ok ()
  blockHeight := .ok 7
  blockTimestamp := .ok 1000
  origin := .ok (List.replicate 32 4)
  replyTo := .ok (some (List.replicate 32 5))
  debug := fun _ => .ok ()
  gasAvailable := .ok 100
  msgId := .ok (List.replicate 32 6)
  programId := .ok (List.replicate 32 7)
  source := .ok (List.replicate 32 8)
  value := .ok 0
  valueAvailable := .ok 0
  leave := .ok ()
  wait := .ok ()
  waitFor := fun _ => .ok ()
  waitUpTo := fun _ => .ok ()
  wake := fun _ _ => .ok ()

/-- A 128-byte zeroed guest memory with the benign extension. -/
def ctx0 : Runtime := { ext := extOk, memory := List.replicate 128 0, err := none }

/-- C10: for every Context c and ContextUpdate u, update unions the
    update's sets into the context's sets and removes nothing. -/
theorem claim_C10_context_update (c : Context) (u : ContextUpdate) :
    (c.update u).programs = c.programs ∪ u.program_ids ∧
    (c.update u).codes = c.codes ∪ u.codes ∧
    c.programs ⊆ (c.update u).programs ∧
    c.codes ⊆ (c.update u).codes := by
  refine ⟨rfl, rfl, ?_, ?_⟩ <;> exact Finset.subset_union_left

/-- C6: into_termination_reason returns the wrapped reason on the
    Terminated variant and Trap(Other(description)) on every other
    variant, where the description is the error's Display text. -/
theorem claim_C6_into_termination_reason :
    ∀ (E : Type) (dispE : E → String),
      (∀ r : TerminationReason,
        FuncError.into_termination_reason dispE (FuncError.Terminated (E := E) r) = r) ∧
      (∀ e : FuncError E, e.isTerminated = false →
        e.into_termination_reason dispE =
          TerminationReason.Trap (TrapExplanation.Other (e.display dispE))) := by
  intro E dispE
  constructor
  · intro r; rfl
  · intro e he
    cases e <;> first
      | rfl
      | (exact absurd he (by simp [FuncError.isTerminated]))

/-- Witness for C6 at a concrete non-Terminated error. -/
theorem claim_C6_witness :
    FuncError.into_termination_reason (E := String) id FuncError.SyscallErrorExpected =
      TerminationReason.Trap (TrapExplanation.Other
        ((FuncError.SyscallErrorExpected (E := String)).display id)) :=
  (claim_C6_into_termination_reason String id).2 FuncError.SyscallErrorExpected rfl

/-- C8: the argument codec succeeds exactly on a correctly-tagged head whose
    numeric conversion succeeds; it fails with the raw sandbox HostError when
    the cursor is exhausted, the conversion fails, or the tag differs
    (including both float tags and the other integer width); and a decode
    failure leaves the runtime context untouched, in particular the trap
    context is not written (shown for the gas handler, whose single argument
    is decoded with pop_i32). -/
theorem claim_C8_pop :
    (∀ (T : Type) (conv : Int → Option T) (args : List Value) (t : T)
        (rest : List Value),
      pop_i32 conv args = .ok (t, rest) ↔
        ∃ v, args = Value.I32 v :: rest ∧ conv v = some t) ∧
    (∀ (T : Type) (conv : Int → Option T) (args : List Value),
      pop_i32 conv args = .error HostError.mk ↔
        args = [] ∨ (∃ v rest, args = Value.I32 v :: rest ∧ conv v = none) ∨
          (∃ hd rest, args = hd :: rest ∧ ∀ v, hd ≠ Value.I32 v)) ∧
    (∀ (T : Type) (conv : Int → Option T) (args : List Value) (t : T)
        (rest : List Value),
      pop_i64 conv args = .ok (t, rest) ↔
        ∃ v, args = Value.I64 v :: rest ∧ conv v = some t) ∧
    (∀ (T : Type) (conv : Int → Option T) (args : List Value),
      pop_i64 conv args = .error HostError.mk ↔
        args = [] ∨ (∃ v rest, args = Value.I64 v :: rest ∧ conv v = none) ∨
          (∃ hd rest, args = hd :: rest ∧ ∀ v, hd ≠ Value.I64 v)) ∧
    (∀ (ctx : Runtime) (args : List Value),
      pop_i32 convI32U32 args = .error HostError.mk →
      FuncsHandler.gas ctx args = (ctx, .error HostError.mk)) :=
  ⟨fun T => pop_i32_ok_iff (T := T), fun T => pop_i32_error_iff (T := T),
    fun T => pop_i64_ok_iff (T := T), fun T => pop_i64_error_iff (T := T),
    gas_decode_fail_unchanged⟩

/-- Witness for C8: a float-tagged argument makes pop_i32 fail and leaves
    the gas handler's context untouched. -/
theorem claim_C8_witness :
    FuncsHandler.gas ctx0 [Value.F32 0] = (ctx0, .error HostError.mk) :=
  claim_C8_pop.2.2.2.2 ctx0 [Value.F32 0] rfl

/-- C7: invoking the error syscall with no recorded domain-level error traps
    with SyscallErrorExpected stored in the trap context and writes nothing
    to guest memory. -/
theorem claim_C7_error_expected (ctx : Runtime) (data_ptr : Nat)
    (h : ctx.ext.lastError = none) :
    FuncsHandler.error ctx [Value.I32 (Int.ofNat data_ptr)] =
      ({ ctx with err := some FuncError.SyscallErrorExpected },
        .error HostError.mk) := by
  have hdec : decode1 [Value.I32 (Int.ofNat data_ptr)] = .ok data_ptr := by
    simp [decode1, pop_i32, convI32U32_ofNat, excBind_ok, excPure]
  unfold FuncsHandler.error mkHandler
  simp only [hdec, h, runFallible]

/-- Witness for C7 on a concrete context with no recorded error. -/
theorem claim_C7_witness :
    FuncsHandler.error ctx0 [Value.I32 (Int.ofNat 3)] =
      ({ ctx0 with err := some FuncError.SyscallErrorExpected },
        .error HostError.mk) :=
  claim_C7_error_expected ctx0 3 rfl

/-- C9: a debug length above the runtime-buffer maximum traps with a
    RuntimeBufferSize error stored in the trap context; no bounds hypothesis
    on the string pointer is needed, so the failure precedes the guest-memory
    copy and the UTF-8 validation, and the context is otherwise untouched. -/
theorem claim_C9_debug_buffer (ctx : Runtime) (str_ptr str_len : Nat)
    (h : str_len > maxRuntimeBufferSize) :
    FuncsHandler.debug ctx
        [Value.I32 (Int.ofNat str_ptr), Value.I32 (Int.ofNat str_len)] =
      ({ ctx with err := some (FuncError.RuntimeBufferSize rbSizeErrMsg) },
        .error HostError.mk) := by
  have hdec : decode2 [Value.I32 (Int.ofNat str_ptr), Value.I32 (Int.ofNat str_len)] =
      .ok (str_ptr, str_len) := by
    simp [decode2, pop_i32, convI32U32_ofNat, excBind_ok, excPure]
  unfold FuncsHandler.debug mkHandler
  simp only [hdec]
  rw [if_neg (by omega)]
  rfl

/-- Witness for C9 with a length one above the maximum. -/
theorem claim_C9_witness :
    FuncsHandler.debug ctx0
        [Value.I32 (Int.ofNat 0), Value.I32 (Int.ofNat (maxRuntimeBufferSize + 1))] =
      ({ ctx0 with err := some (FuncError.RuntimeBufferSize rbSizeErrMsg) },
        .error HostError.mk) :=
  claim_C9_debug_buffer ctx0 0 (maxRuntimeBufferSize + 1) (by omega)

theorem excThrow {ε α : Type} (e : ε) : (throw e : Except ε α) = Except.error e := rfl

/-- Shorthand for an I32 stack value holding a non-negative number. -/
def vi32 (n : Nat) : Value := Value.I32 (Int.ofNat n)

/-- Shorthand for an I64 stack value holding a non-negative number. -/
def vi64 (n : Nat) : Value := Value.I64 (Int.ofNat n)

/-- A context whose extension exit hook reports a bookkeeping failure. -/
def ctxExitErr : Runtime :=
  { ext := { extOk with exit := .error (CoreErr.other "bookkeeping failure") },
    memory := List.replicate 32 0, err := none }

/-- C5 counterexample: with a failing extension exit hook and a successful
    beneficiary read, the recorded trap reason is the propagated Core error,
    not Terminated(Exit(beneficiary)) — the extension error is not
    discarded. -/
theorem claim_C5_counterexample :
    (FuncsHandler.exit ctxExitErr [vi32 0]).1.err =
      some (FuncError.Core (CoreErr.other "bookkeeping failure")) ∧
    (FuncsHandler.exit ctxExitErr [vi32 0]).1.err ≠
      some (FuncError.Terminated
        (TerminationReason.Exit (memSlice ctxExitErr.memory 0 32))) := by
  exact ⟨rfl, by decide⟩

/-- The exit handler's behavior with a successful beneficiary read: always
    traps; records Terminated(Exit(dest)) when the extension hook succeeds
    and the propagated Core error when it fails. -/
theorem exit_behavior (ctx : Runtime) (ptr : Nat)
    (h : ptr + 32 ≤ ctx.memory.length) :
    (FuncsHandler.exit ctx [vi32 ptr]).2 = .error HostError.mk ∧
    (ctx.ext.exit = .ok () →
      (FuncsHandler.exit ctx [vi32 ptr]).1.err =
        some (FuncError.Terminated
          (TerminationReason.Exit (memSlice ctx.memory ptr 32)))) ∧
    (∀ e, ctx.ext.exit = .error e →
      (FuncsHandler.exit ctx [vi32 ptr]).1.err = some (FuncError.Core e)) := by
  have hpop : pop_i32 convI32U32 [vi32 ptr] = .ok (ptr, []) := by
    simp [vi32, pop_i32, convI32U32_ofNat]
  cases hx : ctx.ext.exit with
  | ok u =>
    cases u
    have hres : FuncsHandler.exit ctx [vi32 ptr] =
        ({ ctx with err := some (FuncError.Terminated
            (TerminationReason.Exit (memSlice ctx.memory ptr 32))) },
          .error HostError.mk) := by
      unfold FuncsHandler.exit
      simp only [hpop, read_memory_as_id_ok h, liftCore, hx, excMapError_ok,
        excBind_ok, excThrow]
    rw [hres]
    exact ⟨rfl, fun _ => rfl, fun e he => by simp at he⟩
  | error e =>
    have hres : FuncsHandler.exit ctx [vi32 ptr] =
        ({ ctx with err := some (FuncError.Core e) }, .error HostError.mk) := by
      unfold FuncsHandler.exit
      simp only [hpop, read_memory_as_id_ok h, liftCore, hx, excMapError_error,
        excBind_ok, excBind_error]
    rw [hres]
    refine ⟨rfl, fun hok => by simp at hok, fun e2 he2 => ?_⟩
    injection he2 with h2
    rw [h2]

/-- C5 amended: exit always signals the trap; when the beneficiary read
    succeeds the recorded reason is Terminated(Exit(beneficiary)) if the
    extension exit hook succeeds, and the propagated Core error if the hook
    fails — the extension error is propagated, not discarded. -/
theorem claim_C5_exit_amended (ctx : Runtime) (ptr : Nat)
    (h : ptr + 32 ≤ ctx.memory.length) :
    (FuncsHandler.exit ctx [vi32 ptr]).2 = .error HostError.mk ∧
    (ctx.ext.exit = .ok () →
      (FuncsHandler.exit ctx [vi32 ptr]).1.err =
        some (FuncError.Terminated
          (TerminationReason.Exit (memSlice ctx.memory ptr 32)))) ∧
    (∀ e, ctx.ext.exit = .error e →
      (FuncsHandler.exit ctx [vi32 ptr]).1.err = some (FuncError.Core e)) :=
  exit_behavior ctx ptr h

/-- Witness for the amended C5 on a concrete context with a succeeding
    exit hook. -/
theorem claim_C5_witness :
    (FuncsHandler.exit ctx0 [vi32 0]).2 = .error HostError.mk ∧
    (ctx0.ext.exit = .ok () →
      (FuncsHandler.exit ctx0 [vi32 0]).1.err =
        some (FuncError.Terminated
          (TerminationReason.Exit (memSlice ctx0.memory 0 32)))) ∧
    (∀ e, ctx0.ext.exit = .error e →
      (FuncsHandler.exit ctx0 [vi32 0]).1.err = some (FuncError.Core e)) :=
  claim_C5_exit_amended ctx0 0 (by decide)

theorem exit_traps (ctx : Runtime) (args : List Value) :
    (FuncsHandler.exit ctx args).2 = .error HostError.mk := by
  unfold FuncsHandler.exit
  split
  · rfl
  · dsimp only
    split <;> rfl

theorem wait_for_traps (ctx : Runtime) (args : List Value) :
    (FuncsHandler.wait_for ctx args).2 = .error HostError.mk := by
  unfold FuncsHandler.wait_for
  split <;> rfl

theorem wait_up_to_traps (ctx : Runtime) (args : List Value) :
    (FuncsHandler.wait_up_to ctx args).2 = .error HostError.mk := by
  unfold FuncsHandler.wait_up_to
  split <;> rfl

/-- C3: the control-flow syscalls never return a value to the guest (they
    always signal the trap, for every context and argument list), and when
    decoding, the memory read and the extension hook succeed, the recorded
    trap-context value is exactly the variant matching the syscall:
    Exit(beneficiary), Leave, Wait(None), Wait(Some(d)) for wait_for and
    wait_up_to, and the policy-violation core error for forbidden. -/
theorem claim_C3_control_flow :
    (∀ (ctx : Runtime) (args : List Value),
      (FuncsHandler.exit ctx args).2 = .error HostError.mk) ∧
    (∀ (ctx : Runtime) (args : List Value),
      (FuncsHandler.leave ctx args).2 = .error HostError.mk) ∧
    (∀ (ctx : Runtime) (args : List Value),
      (FuncsHandler.wait ctx args).2 = .error HostError.mk) ∧
    (∀ (ctx : Runtime) (args : List Value),
      (FuncsHandler.wait_for ctx args).2 = .error HostError.mk) ∧
    (∀ (ctx : Runtime) (args : List Value),
      (FuncsHandler.wait_up_to ctx args).2 = .error HostError.mk) ∧
    (∀ (ctx : Runtime) (args : List Value),
      (FuncsHandler.forbidden ctx args).2 = .error HostError.mk) ∧
    (∀ (ctx : Runtime) (ptr : Nat), ptr + 32 ≤ ctx.memory.length →
      ctx.ext.exit = .ok () →
      (FuncsHandler.exit ctx [vi32 ptr]).1.err =
        some (FuncError.Terminated
          (TerminationReason.Exit (memSlice ctx.memory ptr 32)))) ∧
    (∀ ctx : Runtime, ctx.ext.leave = .ok () →
      (FuncsHandler.leave ctx []).1.err =
        some (FuncError.Terminated TerminationReason.Leave)) ∧
    (∀ ctx : Runtime, ctx.ext.wait = .ok () →
      (FuncsHandler.wait ctx []).1.err =
        some (FuncError.Terminated (TerminationReason.Wait none))) ∧
    (∀ (ctx : Runtime) (ptr : Nat), ptr + 4 ≤ ctx.memory.length →
      ctx.ext.waitFor (memU32 ctx ptr) = .ok () →
      (FuncsHandler.wait_for ctx [vi32 ptr]).1.err =
        some (FuncError.Terminated
          (TerminationReason.Wait (some (memU32 ctx ptr))))) ∧
    (∀ (ctx : Runtime) (ptr : Nat), ptr + 4 ≤ ctx.memory.length →
      ctx.ext.waitUpTo (memU32 ctx ptr) = .ok () →
      (FuncsHandler.wait_up_to ctx [vi32 ptr]).1.err =
        some (FuncError.Terminated
          (TerminationReason.Wait (some (memU32 ctx ptr))))) ∧
    (∀ (ctx : Runtime) (args : List Value),
      (FuncsHandler.forbidden ctx args).1.err =
        some (FuncError.Core CoreErr.forbidden)) := by
  refine ⟨exit_traps, fun ctx args => rfl, fun ctx args => rfl, wait_for_traps,
    wait_up_to_traps, fun ctx args => rfl, ?_, ?_, ?_, ?_, ?_, fun ctx args => rfl⟩
  · intro ctx ptr h hx
    exact (exit_behavior ctx ptr h).2.1 hx
  · intro ctx hx
    unfold FuncsHandler.leave
    simp only [hx]
  · intro ctx hx
    unfold FuncsHandler.wait
    simp only [hx]
  · intro ctx ptr h hw
    have hpop : pop_i32 convI32U32 [vi32 ptr] = .ok (ptr, []) := by
      simp [vi32, pop_i32, convI32U32_ofNat]
    unfold FuncsHandler.wait_for
    simp only [hpop, read_memory_as_u32_ok h, excBind_ok, liftCore, hw,
      excMapError_ok, excPure]
  · intro ctx ptr h hw
    have hpop : pop_i32 convI32U32 [vi32 ptr] = .ok (ptr, []) := by
      simp [vi32, pop_i32, convI32U32_ofNat]
    unfold FuncsHandler.wait_up_to
    simp only [hpop, read_memory_as_u32_ok h, excBind_ok, liftCore, hw,
      excMapError_ok, excPure]

/-- Witness for C3: wait_for on a concrete context records
    Terminated(Wait(Some(duration))). -/
theorem claim_C3_witness :
    (FuncsHandler.wait_for ctx0 [vi32 0]).1.err =
      some (FuncError.Terminated
        (TerminationReason.Wait (some (memU32 ctx0 0)))) :=
  claim_C3_control_flow.2.2.2.2.2.2.2.2.2.1 ctx0 0 (by decide) rfl

/-- C2: the read syscall succeeds exactly when at+len neither overflows
    usize nor exceeds the current payload length, copying the payload
    sub-range to dest; an overflow fails with ReadLenOverflow(at, len), an
    excessive range with ReadWrongRange(at..at+len, payload length), and in
    both failure cases guest memory (in particular at dest) is untouched,
    with the error stored in the trap context. -/
theorem claim_C2_read_range (ctx : Runtime) (at_ len dest : Nat)
    (msg : List Nat) (hread : ctx.ext.read = .ok msg)
    (hdest : dest + len ≤ ctx.memory.length) :
    (at_ + len < USIZE → at_ + len ≤ msg.length →
      FuncsHandler.read ctx [vi32 at_, vi32 len, vi32 dest] =
        ({ ctx with memory := writeBytes ctx.memory dest ((msg.drop at_).take len) },
          .ok ReturnValue.Unit)) ∧
    (¬ at_ + len < USIZE →
      FuncsHandler.read ctx [vi32 at_, vi32 len, vi32 dest] =
        ({ ctx with err := some (FuncError.ReadLenOverflow at_ len) },
          .error HostError.mk)) ∧
    (at_ + len < USIZE → at_ + len > msg.length →
      FuncsHandler.read ctx [vi32 at_, vi32 len, vi32 dest] =
        ({ ctx with err := some (FuncError.ReadWrongRange at_ (at_ + len) msg.length) },
          .error HostError.mk)) := by
  have hdec : decode3 [vi32 at_, vi32 len, vi32 dest] = .ok (at_, len, dest) := by
    simp [decode3, vi32, pop_i32, convI32U32_ofNat, excBind_ok, excPure]
  refine ⟨?_, ?_, ?_⟩
  · intro hov hlen
    have hca : checkedAddUsize at_ len = some (at_ + len) := by
      simp [checkedAddUsize, if_pos hov]
    have hslen : ((msg.drop at_).take (at_ + len - at_)).length = at_ + len - at_ := by
      simp only [List.length_take, List.length_drop]
      omega
    unfold FuncsHandler.read mkHandler Runtime.write_validated_output
    simp only [hdec, liftCore, hread, excMapError_ok, excBind_ok, hca]
    rw [if_neg (by omega)]
    simp only [excBind_ok]
    rw [Runtime.write_output, if_pos (by rw [hslen]; omega)]
    simp only [excMap_ok, runFallible, Nat.add_sub_cancel_left]
  · intro hov
    have hca : checkedAddUsize at_ len = none := by
      simp [checkedAddUsize, if_neg hov]
    unfold FuncsHandler.read mkHandler Runtime.write_validated_output
    simp only [hdec, liftCore, hread, excMapError_ok, excBind_ok, hca,
      excBind_error, excMap_error, runFallible]
  · intro hov hlen
    have hca : checkedAddUsize at_ len = some (at_ + len) := by
      simp [checkedAddUsize, if_pos hov]
    unfold FuncsHandler.read mkHandler Runtime.write_validated_output
    simp only [hdec, liftCore, hread, excMapError_ok, excBind_ok, hca]
    rw [if_pos (by omega)]
    simp only [excBind_error, excMap_error, runFallible]

/-- Witness for C2: reading past a 5-byte payload fails with
    ReadWrongRange(3..13, 5) and leaves the context memory untouched. -/
theorem claim_C2_witness :
    FuncsHandler.read ctx0 [vi32 3, vi32 10, vi32 0] =
      ({ ctx0 with err := some (FuncError.ReadWrongRange 3 13 5) },
        .error HostError.mk) :=
  (claim_C2_read_range ctx0 3 10 0 [1, 2, 3, 4, 5] rfl (by decide)).2.2
    (by decide) (by decide)

theorem natToLEBytes_length (k n : Nat) : (natToLEBytes k n).length = k := by
  induction k generalizing n with
  | zero => rfl
  | succ k ih => simp [natToLEBytes, ih]

/-- Result of a successful outgoing-message handler: the produced id bytes
    are written at the guest-supplied output pointer and the status is 0. -/
def sentState (ctx : Runtime) (outPtr : Nat) (id : List Nat) :
    Runtime × SyscallOutput :=
  ({ ctx with memory := writeBytes ctx.memory outPtr id },
    .ok (.Value (.I32 0)))

/-- Result of a domain-rejected outgoing-message handler: the description is
    recorded as the last error, guest memory is untouched, and the status is
    the description's byte length. -/
def rejectedState (ctx : Runtime) (desc : List Nat) : Runtime × SyscallOutput :=
  ({ ctx with ext := { ctx.ext with lastError := some desc } },
    .ok (.Value (.I32 (Int.ofNat desc.length))))

/-- C1: every outgoing-message handler (send, send_wgas, send_commit,
    send_commit_wgas, send_init, reply, reply_wgas, reply_commit,
    reply_commit_wgas, create_program, create_program_wgas), with decodable
    arguments and in-bounds guest-memory reads: on an extension-reported
    success the status is 0 and the produced id (message id, handle or
    program id) is written at the guest output pointer; on an
    extension-reported domain failure the status equals the byte length of
    the recorded description, which is positive, and the output pointer is
    untouched. -/
theorem claim_C1_outgoing_status :
    (∀ (ctx : Runtime) (p1 p2 pl vp mp dp : Nat),
      p1 + 32 ≤ ctx.memory.length → p2 + pl ≤ ctx.memory.length →
      pl ≤ maxPayloadSize → vp + 16 ≤ ctx.memory.length →
      dp + 4 ≤ ctx.memory.length →
      (∀ id : MessageId,
        ctx.ext.send (HandlePacket.new (memSlice ctx.memory p1 32)
            (memSlice ctx.memory p2 pl) (memU128 ctx vp)) (memU32 ctx dp) =
          .success id →
        mp + id.length ≤ ctx.memory.length →
        FuncsHandler.send ctx [vi32 p1, vi32 p2, vi32 pl, vi32 vp, vi32 mp, vi32 dp] =
          sentState ctx mp id) ∧
      (∀ desc : List Nat,
        ctx.ext.send (HandlePacket.new (memSlice ctx.memory p1 32)
            (memSlice ctx.memory p2 pl) (memU128 ctx vp)) (memU32 ctx dp) =
          .domainFail desc →
        desc ≠ [] → desc.length < 2 ^ 31 →
        0 < desc.length ∧
        FuncsHandler.send ctx [vi32 p1, vi32 p2, vi32 pl, vi32 vp, vi32 mp, vi32 dp] =
          rejectedState ctx desc)) ∧
    (∀ (ctx : Runtime) (p1 p2 pl g vp mp dp : Nat),
      p1 + 32 ≤ ctx.memory.length → p2 + pl ≤ ctx.memory.length →
      pl ≤ maxPayloadSize → vp + 16 ≤ ctx.memory.length →
      dp + 4 ≤ ctx.memory.length →
      (∀ id : MessageId,
        ctx.ext.send (HandlePacket.new_with_gas (memSlice ctx.memory p1 32)
            (memSlice ctx.memory p2 pl) g (memU128 ctx vp)) (memU32 ctx dp) =
          .success id →
        mp + id.length ≤ ctx.memory.length →
        FuncsHandler.send_wgas ctx
            [vi32 p1, vi32 p2, vi32 pl, vi64 g, vi32 vp, vi32 mp, vi32 dp] =
          sentState ctx mp id) ∧
      (∀ desc : List Nat,
        ctx.ext.send (HandlePacket.new_with_gas (memSlice ctx.memory p1 32)
            (memSlice ctx.memory p2 pl) g (memU128 ctx vp)) (memU32 ctx dp) =
          .domainFail desc →
        desc ≠ [] → desc.length < 2 ^ 31 →
        0 < desc.length ∧
        FuncsHandler.send_wgas ctx
            [vi32 p1, vi32 p2, vi32 pl, vi64 g, vi32 vp, vi32 mp, vi32 dp] =
          rejectedState ctx desc)) ∧
    (∀ (ctx : Runtime) (hdl mp p3 vp dp : Nat),
      p3 + 32 ≤ ctx.memory.length → vp + 16 ≤ ctx.memory.length →
      dp + 4 ≤ ctx.memory.length →
      (∀ id : MessageId,
        ctx.ext.sendCommit hdl (HandlePacket.new (memSlice ctx.memory p3 32)
            [] (memU128 ctx vp)) (memU32 ctx dp) = .success id →
        mp + id.length ≤ ctx.memory.length →
        FuncsHandler.send_commit ctx [vi32 hdl, vi32 mp, vi32 p3, vi32 vp, vi32 dp] =
          sentState ctx mp id) ∧
      (∀ desc : List Nat,
        ctx.ext.sendCommit hdl (HandlePacket.new (memSlice ctx.memory p3 32)
            [] (memU128 ctx vp)) (memU32 ctx dp) = .domainFail desc →
        desc ≠ [] → desc.length < 2 ^ 31 →
        0 < desc.length ∧
        FuncsHandler.send_commit ctx [vi32 hdl, vi32 mp, vi32 p3, vi32 vp, vi32 dp] =
          rejectedState ctx desc)) ∧
    (∀ (ctx : Runtime) (hdl mp p3 g vp dp : Nat),
      p3 + 32 ≤ ctx.memory.length → vp + 16 ≤ ctx.memory.length →
      dp + 4 ≤ ctx.memory.length →
      (∀ id : MessageId,
        ctx.ext.sendCommit hdl (HandlePacket.new_with_gas (memSlice ctx.memory p3 32)
            [] g (memU128 ctx vp)) (memU32 ctx dp) = .success id →
        mp + id.length ≤ ctx.memory.length →
        FuncsHandler.send_commit_wgas ctx
            [vi32 hdl, vi32 mp, vi32 p3, vi64 g, vi32 vp, vi32 dp] =
          sentState ctx mp id) ∧
      (∀ desc : List Nat,
        ctx.ext.sendCommit hdl (HandlePacket.new_with_gas (memSlice ctx.memory p3 32)
            [] g (memU128 ctx vp)) (memU32 ctx dp) = .domainFail desc →
        desc ≠ [] → desc.length < 2 ^ 31 →
        0 < desc.length ∧
        FuncsHandler.send_commit_wgas ctx
            [vi32 hdl, vi32 mp, vi32 p3, vi64 g, vi32 vp, vi32 dp] =
          rejectedState ctx desc)) ∧
    (∀ (ctx : Runtime) (hp : Nat),
      hp + 4 ≤ ctx.memory.length →
      (∀ handle : Nat,
        ctx.ext.sendInit = .success handle →
        FuncsHandler.send_init ctx [vi32 hp] =
          sentState ctx hp (natToLEBytes 4 handle)) ∧
      (∀ desc : List Nat,
        ctx.ext.sendInit = .domainFail desc →
        desc ≠ [] → desc.length < 2 ^ 31 →
        0 < desc.length ∧
        FuncsHandler.send_init ctx [vi32 hp] = rejectedState ctx desc)) ∧
    (∀ (ctx : Runtime) (pp pl vp mp dp : Nat),
      pp + pl ≤ ctx.memory.length → pl ≤ maxPayloadSize →
      vp + 16 ≤ ctx.memory.length → dp + 4 ≤ ctx.memory.length →
      (∀ id : MessageId,
        ctx.ext.reply (ReplyPacket.new (memSlice ctx.memory pp pl)
            (memU128 ctx vp)) (memU32 ctx dp) = .success id →
        mp + id.length ≤ ctx.memory.length →
        FuncsHandler.reply ctx [vi32 pp, vi32 pl, vi32 vp, vi32 mp, vi32 dp] =
          sentState ctx mp id) ∧
      (∀ desc : List Nat,
        ctx.ext.reply (ReplyPacket.new (memSlice ctx.memory pp pl)
            (memU128 ctx vp)) (memU32 ctx dp) = .domainFail desc →
        desc ≠ [] → desc.length < 2 ^ 31 →
        0 < desc.length ∧
        FuncsHandler.reply ctx [vi32 pp, vi32 pl, vi32 vp, vi32 mp, vi32 dp] =
          rejectedState ctx desc)) ∧
    (∀ (ctx : Runtime) (pp pl g vp mp dp : Nat),
      pp + pl ≤ ctx.memory.length → pl ≤ maxPayloadSize →
      vp + 16 ≤ ctx.memory.length → dp + 4 ≤ ctx.memory.length →
      (∀ id : MessageId,
        ctx.ext.reply (ReplyPacket.new_with_gas (memSlice ctx.memory pp pl) g
            (memU128 ctx vp)) (memU32 ctx dp) = .success id →
        mp + id.length ≤ ctx.memory.length →
        FuncsHandler.reply_wgas ctx
            [vi32 pp, vi32 pl, vi64 g, vi32 vp, vi32 mp, vi32 dp] =
          sentState ctx mp id) ∧
      (∀ desc : List Nat,
        ctx.ext.reply (ReplyPacket.new_with_gas (memSlice ctx.memory pp pl) g
            (memU128 ctx vp)) (memU32 ctx dp) = .domainFail desc →
        desc ≠ [] → desc.length < 2 ^ 31 →
        0 < desc.length ∧
        FuncsHandler.reply_wgas ctx
            [vi32 pp, vi32 pl, vi64 g, vi32 vp, vi32 mp, vi32 dp] =
          rejectedState ctx desc)) ∧
    (∀ (ctx : Runtime) (vp mp dp : Nat),
      vp + 16 ≤ ctx.memory.length → dp + 4 ≤ ctx.memory.length →
      (∀ id : MessageId,
        ctx.ext.replyCommit (ReplyPacket.new [] (memU128 ctx vp)) (memU32 ctx dp) =
          .success id →
        mp + id.length ≤ ctx.memory.length →
        FuncsHandler.reply_commit ctx [vi32 vp, vi32 mp, vi32 dp] =
          sentState ctx mp id) ∧
      (∀ desc : List Nat,
        ctx.ext.replyCommit (ReplyPacket.new [] (memU128 ctx vp)) (memU32 ctx dp) =
          .domainFail desc →
        desc ≠ [] → desc.length < 2 ^ 31 →
        0 < desc.length ∧
        FuncsHandler.reply_commit ctx [vi32 vp, vi32 mp, vi32 dp] =
          rejectedState ctx desc)) ∧
    (∀ (ctx : Runtime) (g vp mp dp : Nat),
      vp + 16 ≤ ctx.memory.length → dp + 4 ≤ ctx.memory.length →
      (∀ id : MessageId,
        ctx.ext.replyCommit (ReplyPacket.new_with_gas [] g (memU128 ctx vp))
            (memU32 ctx dp) = .success id →
        mp + id.length ≤ ctx.memory.length →
        FuncsHandler.reply_commit_wgas ctx [vi64 g, vi32 vp, vi32 mp, vi32 dp] =
          sentState ctx mp id) ∧
      (∀ desc : List Nat,
        ctx.ext.replyCommit (ReplyPacket.new_with_gas [] g (memU128 ctx vp))
            (memU32 ctx dp) = .domainFail desc →
        desc ≠ [] → desc.length < 2 ^ 31 →
        0 < desc.length ∧
        FuncsHandler.reply_commit_wgas ctx [vi64 g, vi32 vp, vi32 mp, vi32 dp] =
          rejectedState ctx desc)) ∧
    (∀ (ctx : Runtime) (ch sp sl pp pl vp op dp : Nat),
      ch + 32 ≤ ctx.memory.length → sp + sl ≤ ctx.memory.length →
      pp + pl ≤ ctx.memory.length → pl ≤ maxPayloadSize →
      vp + 16 ≤ ctx.memory.length → dp + 4 ≤ ctx.memory.length →
      (∀ id : ProgramId,
        ctx.ext.createProgram (InitPacket.new (memSlice ctx.memory ch 32)
            (memSlice ctx.memory sp sl) (memSlice ctx.memory pp pl)
            (memU128 ctx vp)) (memU32 ctx dp) = .success id →
        op + id.length ≤ ctx.memory.length →
        FuncsHandler.create_program ctx
            [vi32 ch, vi32 sp, vi32 sl, vi32 pp, vi32 pl, vi32 vp, vi32 op, vi32 dp] =
          sentState ctx op id) ∧
      (∀ desc : List Nat,
        ctx.ext.createProgram (InitPacket.new (memSlice ctx.memory ch 32)
            (memSlice ctx.memory sp sl) (memSlice ctx.memory pp pl)
            (memU128 ctx vp)) (memU32 ctx dp) = .domainFail desc →
        desc ≠ [] → desc.length < 2 ^ 31 →
        0 < desc.length ∧
        FuncsHandler.create_program ctx
            [vi32 ch, vi32 sp, vi32 sl, vi32 pp, vi32 pl, vi32 vp, vi32 op, vi32 dp] =
          rejectedState ctx desc)) ∧
    (∀ (ctx : Runtime) (ch sp sl pp pl g vp op dp : Nat),
      ch + 32 ≤ ctx.memory.length → sp + sl ≤ ctx.memory.length →
      pp + pl ≤ ctx.memory.length → pl ≤ maxPayloadSize →
      vp + 16 ≤ ctx.memory.length → dp + 4 ≤ ctx.memory.length →
      (∀ id : ProgramId,
        ctx.ext.createProgram (InitPacket.new_with_gas (memSlice ctx.memory ch 32)
            (memSlice ctx.memory sp sl) (memSlice ctx.memory pp pl) g
            (memU128 ctx vp)) (memU32 ctx dp) = .success id →
        op + id.length ≤ ctx.memory.length →
        FuncsHandler.create_program_wgas ctx
            [vi32 ch, vi32 sp, vi32 sl, vi32 pp, vi32 pl, vi64 g, vi32 vp,
              vi32 op, vi32 dp] =
          sentState ctx op id) ∧
      (∀ desc : List Nat,
        ctx.ext.createProgram (InitPacket.new_with_gas (memSlice ctx.memory ch 32)
            (memSlice ctx.memory sp sl) (memSlice ctx.memory pp pl) g
            (memU128 ctx vp)) (memU32 ctx dp) = .domainFail desc →
        desc ≠ [] → desc.length < 2 ^ 31 →
        0 < desc.length ∧
        FuncsHandler.create_program_wgas ctx
            [vi32 ch, vi32 sp, vi32 sl, vi32 pp, vi32 pl, vi64 g, vi32 vp,
              vi32 op, vi32 dp] =
          rejectedState ctx desc)) := by
  refine ⟨?_, ?_, ?_, ?_, ?_, ?_, ?_, ?_, ?_, ?_, ?_⟩
  · intro ctx p1 p2 pl vp mp dp h1 h2 h3 h4 h5
    have hdec : decode6 [vi32 p1, vi32 p2, vi32 pl, vi32 vp, vi32 mp, vi32 dp] =
        .ok (p1, p2, pl, vp, mp, dp) := by
      simp [decode6, vi32, pop_i32, convI32U32_ofNat, excBind_ok, excPure]
    have hpay : payloadTryInto (memSlice ctx.memory p2 pl) =
        .ok (memSlice ctx.memory p2 pl) :=
      payloadTryInto_ok (by rw [memSlice_length h2]; exact h3)
    constructor
    · intro id hsend hmp
      unfold FuncsHandler.send mkHandler
      simp only [hdec, read_memory_as_id_ok h1, read_memory_ok h2, hpay,
        read_memory_as_u128_ok h4, read_memory_as_u32_ok h5, excBind_ok, hsend,
        processErrorLenOnSuccess, write_output_ok hmp, excMap_ok, excPure,
        runFallible, sentState, u32toI32_zero]
    · intro desc hsend hne h31
      refine ⟨List.length_pos.mpr hne, ?_⟩
      unfold FuncsHandler.send mkHandler
      simp only [hdec, read_memory_as_id_ok h1, read_memory_ok h2, hpay,
        read_memory_as_u128_ok h4, read_memory_as_u32_ok h5, excBind_ok, hsend,
        processErrorLenOnSuccess, excPure, runFallible, rejectedState,
        u32toI32_small h31]
  · intro ctx p1 p2 pl g vp mp dp h1 h2 h3 h4 h5
    have hdec : decodeSendWgas
        [vi32 p1, vi32 p2, vi32 pl, vi64 g, vi32 vp, vi32 mp, vi32 dp] =
        .ok (p1, p2, pl, g, vp, mp, dp) := by
      simp [decodeSendWgas, vi32, vi64, pop_i32, pop_i64, convI32U32_ofNat,
        convI64U64_ofNat, excBind_ok, excPure]
    have hpay : payloadTryInto (memSlice ctx.memory p2 pl) =
        .ok (memSlice ctx.memory p2 pl) :=
      payloadTryInto_ok (by rw [memSlice_length h2]; exact h3)
    constructor
    · intro id hsend hmp
      unfold FuncsHandler.send_wgas mkHandler
      simp only [hdec, read_memory_as_id_ok h1, read_memory_ok h2, hpay,
        read_memory_as_u128_ok h4, read_memory_as_u32_ok h5, excBind_ok, hsend,
        processErrorLenOnSuccess, write_output_ok hmp, excMap_ok, excPure,
        runFallible, sentState, u32toI32_zero]
    · intro desc hsend hne h31
      refine ⟨List.length_pos.mpr hne, ?_⟩
      unfold FuncsHandler.send_wgas mkHandler
      simp only [hdec, read_memory_as_id_ok h1, read_memory_ok h2, hpay,
        read_memory_as_u128_ok h4, read_memory_as_u32_ok h5, excBind_ok, hsend,
        processErrorLenOnSuccess, excPure, runFallible, rejectedState,
        u32toI32_small h31]
  · intro ctx hdl mp p3 vp dp h1 h2 h3
    have hdec : decode5 [vi32 hdl, vi32 mp, vi32 p3, vi32 vp, vi32 dp] =
        .ok (hdl, mp, p3, vp, dp) := by
      simp [decode5, vi32, pop_i32, convI32U32_ofNat, excBind_ok, excPure]
    constructor
    · intro id hsend hmp
      unfold FuncsHandler.send_commit mkHandler
      simp only [hdec, read_memory_as_id_ok h1, read_memory_as_u128_ok h2,
        read_memory_as_u32_ok h3, excBind_ok, hsend, processErrorLenOnSuccess,
        write_output_ok hmp, excMap_ok, excPure, runFallible, sentState,
        u32toI32_zero]
    · intro desc hsend hne h31
      refine ⟨List.length_pos.mpr hne, ?_⟩
      unfold FuncsHandler.send_commit mkHandler
      simp only [hdec, read_memory_as_id_ok h1, read_memory_as_u128_ok h2,
        read_memory_as_u32_ok h3, excBind_ok, hsend, processErrorLenOnSuccess,
        excPure, runFallible, rejectedState, u32toI32_small h31]
  · intro ctx hdl mp p3 g vp dp h1 h2 h3
    have hdec : decodeSendCommitWgas
        [vi32 hdl, vi32 mp, vi32 p3, vi64 g, vi32 vp, vi32 dp] =
        .ok (hdl, mp, p3, g, vp, dp) := by
      simp [decodeSendCommitWgas, vi32, vi64, pop_i32, pop_i64, convI32U32_ofNat,
        convI64U64_ofNat, excBind_ok, excPure]
    constructor
    · intro id hsend hmp
      unfold FuncsHandler.send_commit_wgas mkHandler
      simp only [hdec, read_memory_as_id_ok h1, read_memory_as_u128_ok h2,
        read_memory_as_u32_ok h3, excBind_ok, hsend, processErrorLenOnSuccess,
        write_output_ok hmp, excMap_ok, excPure, runFallible, sentState,
        u32toI32_zero]
    · intro desc hsend hne h31
      refine ⟨List.length_pos.mpr hne, ?_⟩
      unfold FuncsHandler.send_commit_wgas mkHandler
      simp only [hdec, read_memory_as_id_ok h1, read_memory_as_u128_ok h2,
        read_memory_as_u32_ok h3, excBind_ok, hsend, processErrorLenOnSuccess,
        excPure, runFallible, rejectedState, u32toI32_small h31]
  · intro ctx hp hhp
    have hdec : decode1 [vi32 hp] = .ok hp := by
      simp [decode1, vi32, pop_i32, convI32U32_ofNat, excBind_ok, excPure]
    constructor
    · intro handle hsend
      have hw : hp + (natToLEBytes 4 handle).length ≤ ctx.memory.length := by
        rw [natToLEBytes_length]
        exact hhp
      unfold FuncsHandler.send_init mkHandler
      simp only [hdec, hsend, processErrorLenOnSuccess, write_output_ok hw,
        excBind_ok, excMap_ok, excPure, runFallible, sentState, u32toI32_zero]
    · intro desc hsend hne h31
      refine ⟨List.length_pos.mpr hne, ?_⟩
      unfold FuncsHandler.send_init mkHandler
      simp only [hdec, hsend, processErrorLenOnSuccess, excBind_ok, excPure,
        runFallible, rejectedState, u32toI32_small h31]
  · intro ctx pp pl vp mp dp h1 h2 h3 h4
    have hdec : decode5 [vi32 pp, vi32 pl, vi32 vp, vi32 mp, vi32 dp] =
        .ok (pp, pl, vp, mp, dp) := by
      simp [decode5, vi32, pop_i32, convI32U32_ofNat, excBind_ok, excPure]
    have hpay : payloadTryInto (memSlice ctx.memory pp pl) =
        .ok (memSlice ctx.memory pp pl) :=
      payloadTryInto_ok (by rw [memSlice_length h1]; exact h2)
    constructor
    · intro id hsend hmp
      unfold FuncsHandler.reply mkHandler
      simp only [hdec, read_memory_ok h1, hpay, read_memory_as_u128_ok h3,
        read_memory_as_u32_ok h4, excBind_ok, hsend, processErrorLenOnSuccess,
        write_output_ok hmp, excMap_ok, excPure, runFallible, sentState,
        u32toI32_zero]
    · intro desc hsend hne h31
      refine ⟨List.length_pos.mpr hne, ?_⟩
      unfold FuncsHandler.reply mkHandler
      simp only [hdec, read_memory_ok h1, hpay, read_memory_as_u128_ok h3,
        read_memory_as_u32_ok h4, excBind_ok, hsend, processErrorLenOnSuccess,
        excPure, runFallible, rejectedState, u32toI32_small h31]
  · intro ctx pp pl g vp mp dp h1 h2 h3 h4
    have hdec : decodeReplyWgas
        [vi32 pp, vi32 pl, vi64 g, vi32 vp, vi32 mp, vi32 dp] =
        .ok (pp, pl, g, vp, mp, dp) := by
      simp [decodeReplyWgas, vi32, vi64, pop_i32, pop_i64, convI32U32_ofNat,
        convI64U64_ofNat, excBind_ok, excPure]
    have hpay : payloadTryInto (memSlice ctx.memory pp pl) =
        .ok (memSlice ctx.memory pp pl) :=
      payloadTryInto_ok (by rw [memSlice_length h1]; exact h2)
    constructor
    · intro id hsend hmp
      unfold FuncsHandler.reply_wgas mkHandler
      simp only [hdec, read_memory_ok h1, hpay, read_memory_as_u128_ok h3,
        read_memory_as_u32_ok h4, excBind_ok, hsend, processErrorLenOnSuccess,
        write_output_ok hmp, excMap_ok, excPure, runFallible, sentState,
        u32toI32_zero]
    · intro desc hsend hne h31
      refine ⟨List.length_pos.mpr hne, ?_⟩
      unfold FuncsHandler.reply_wgas mkHandler
      simp only [hdec, read_memory_ok h1, hpay, read_memory_as_u128_ok h3,
        read_memory_as_u32_ok h4, excBind_ok, hsend, processErrorLenOnSuccess,
        excPure, runFallible, rejectedState, u32toI32_small h31]
  · intro ctx vp mp dp h1 h2
    have hdec : decode3 [vi32 vp, vi32 mp, vi32 dp] = .ok (vp, mp, dp) := by
      simp [decode3, vi32, pop_i32, convI32U32_ofNat, excBind_ok, excPure]
    constructor
    · intro id hsend hmp
      unfold FuncsHandler.reply_commit mkHandler
      simp only [hdec, read_memory_as_u128_ok h1, read_memory_as_u32_ok h2,
        excBind_ok, hsend, processErrorLenOnSuccess, write_output_ok hmp,
        excMap_ok, excPure, runFallible, sentState, u32toI32_zero]
    · intro desc hsend hne h31
      refine ⟨List.length_pos.mpr hne, ?_⟩
      unfold FuncsHandler.reply_commit mkHandler
      simp only [hdec, read_memory_as_u128_ok h1, read_memory_as_u32_ok h2,
        excBind_ok, hsend, processErrorLenOnSuccess, excPure, runFallible,
        rejectedState, u32toI32_small h31]
  · intro ctx g vp mp dp h1 h2
    have hdec : decodeReplyCommitWgas [vi64 g, vi32 vp, vi32 mp, vi32 dp] =
        .ok (g, vp, mp, dp) := by
      simp [decodeReplyCommitWgas, vi32, vi64, pop_i32, pop_i64,
        convI32U32_ofNat, convI64U64_ofNat, excBind_ok, excPure]
    constructor
    · intro id hsend hmp
      unfold FuncsHandler.reply_commit_wgas mkHandler
      simp only [hdec, read_memory_as_u128_ok h1, read_memory_as_u32_ok h2,
        excBind_ok, hsend, processErrorLenOnSuccess, write_output_ok hmp,
        excMap_ok, excPure, runFallible, sentState, u32toI32_zero]
    · intro desc hsend hne h31
      refine ⟨List.length_pos.mpr hne, ?_⟩
      unfold FuncsHandler.reply_commit_wgas mkHandler
      simp only [hdec, read_memory_as_u128_ok h1, read_memory_as_u32_ok h2,
        excBind_ok, hsend, processErrorLenOnSuccess, excPure, runFallible,
        rejectedState, u32toI32_small h31]
  · intro ctx ch sp sl pp pl vp op dp h1 h2 h3 h4 h5 h6
    have hdec : decode8
        [vi32 ch, vi32 sp, vi32 sl, vi32 pp, vi32 pl, vi32 vp, vi32 op, vi32 dp] =
        .ok (ch, sp, sl, pp, pl, vp, op, dp) := by
      simp [decode8, vi32, pop_i32, convI32U32_ofNat, excBind_ok, excPure]
    have hpay : payloadTryInto (memSlice ctx.memory pp pl) =
        .ok (memSlice ctx.memory pp pl) :=
      payloadTryInto_ok (by rw [memSlice_length h3]; exact h4)
    constructor
    · intro id hsend hop
      unfold FuncsHandler.create_program mkHandler
      simp only [hdec, read_memory_as_id_ok h1, read_memory_ok h2,
        read_memory_ok h3, hpay, read_memory_as_u128_ok h5,
        read_memory_as_u32_ok h6, excBind_ok, hsend, processErrorLenOnSuccess,
        write_output_ok hop, excMap_ok, excPure, runFallible, sentState,
        u32toI32_zero]
    · intro desc hsend hne h31
      refine ⟨List.length_pos.mpr hne, ?_⟩
      unfold FuncsHandler.create_program mkHandler
      simp only [hdec, read_memory_as_id_ok h1, read_memory_ok h2,
        read_memory_ok h3, hpay, read_memory_as_u128_ok h5,
        read_memory_as_u32_ok h6, excBind_ok, hsend, processErrorLenOnSuccess,
        excPure, runFallible, rejectedState, u32toI32_small h31]
  · intro ctx ch sp sl pp pl g vp op dp h1 h2 h3 h4 h5 h6
    have hdec : decodeCreateProgramWgas
        [vi32 ch, vi32 sp, vi32 sl, vi32 pp, vi32 pl, vi64 g, vi32 vp,
          vi32 op, vi32 dp] =
        .ok (ch, sp, sl, pp, pl, g, vp, op, dp) := by
      simp [decodeCreateProgramWgas, vi32, vi64, pop_i32, pop_i64,
        convI32U32_ofNat, convI64U64_ofNat, excBind_ok, excPure]
    have hpay : payloadTryInto (memSlice ctx.memory pp pl) =
        .ok (memSlice ctx.memory pp pl) :=
      payloadTryInto_ok (by rw [memSlice_length h3]; exact h4)
    constructor
    · intro id hsend hop
      unfold FuncsHandler.create_program_wgas mkHandler
      simp only [hdec, read_memory_as_id_ok h1, read_memory_ok h2,
        read_memory_ok h3, hpay, read_memory_as_u128_ok h5,
        read_memory_as_u32_ok h6, excBind_ok, hsend, processErrorLenOnSuccess,
        write_output_ok hop, excMap_ok, excPure, runFallible, sentState,
        u32toI32_zero]
    · intro desc hsend hne h31
      refine ⟨List.length_pos.mpr hne, ?_⟩
      unfold FuncsHandler.create_program_wgas mkHandler
      simp only [hdec, read_memory_as_id_ok h1, read_memory_ok h2,
        read_memory_ok h3, hpay, read_memory_as_u128_ok h5,
        read_memory_as_u32_ok h6, excBind_ok, hsend, processErrorLenOnSuccess,
        excPure, runFallible, rejectedState, u32toI32_small h31]

/-- Witness for C1: a concrete successful send writes the message id at the
    output pointer and returns status 0. -/
theorem claim_C1_witness :
    FuncsHandler.send ctx0 [vi32 0, vi32 32, vi32 2, vi32 34, vi32 60, vi32 50] =
      sentState ctx0 60 (List.replicate 32 1) :=
  (claim_C1_outgoing_status.1 ctx0 0 32 2 34 60 50 (by decide) (by decide)
      (by decide) (by decide) (by decide)).1 (List.replicate 32 1) rfl (by decide)

theorem mkHandler_stores {α : Type} (dec : List Value → Except HostError α)
    (body : Runtime → α → Except FErr (Runtime × ReturnValue))
    (ctx : Runtime) (args : List Value)
    (ht : (mkHandler dec body ctx args).2 = .error HostError.mk) :
    (mkHandler dec body ctx args).1.err ≠ none ∨
      (mkHandler dec body ctx args).1 = ctx := by
  unfold mkHandler runFallible at ht ⊢
  cases hd : dec args with
  | error e => right; simp [hd]
  | ok a =>
    simp only [hd] at ht ⊢
    cases hb : body ctx a with
    | ok pr =>
      rw [hb] at ht
      obtain ⟨c2, rv⟩ := pr
      simp at ht
    | error e =>
      left
      simp [hb]

theorem size_stores (ctx : Runtime) (args : List Value)
    (ht : (FuncsHandler.size ctx args).2 = .error HostError.mk) :
    (FuncsHandler.size ctx args).1.err ≠ none ∨
      (FuncsHandler.size ctx args).1 = ctx := by
  unfold FuncsHandler.size
  cases hs : ctx.ext.size with
  | ok n => right; simp [hs]
  | error e => left; simp [hs]

theorem exit_stores (ctx : Runtime) (args : List Value)
    (ht : (FuncsHandler.exit ctx args).2 = .error HostError.mk) :
    (FuncsHandler.exit ctx args).1.err ≠ none ∨
      (FuncsHandler.exit ctx args).1 = ctx := by
  unfold FuncsHandler.exit
  split
  · right; rfl
  · dsimp only
    split
    · left; simp
    · right; rfl

theorem exit_code_stores (ctx : Runtime) (args : List Value)
    (ht : (FuncsHandler.exit_code ctx args).2 = .error HostError.mk) :
    (FuncsHandler.exit_code ctx args).1.err ≠ none ∨
      (FuncsHandler.exit_code ctx args).1 = ctx := by
  unfold FuncsHandler.exit_code
  split
  · left; simp
  · right; rfl
  · left; simp

theorem alloc_stores (ctx : Runtime) (args : List Value)
    (ht : (FuncsHandler.alloc ctx args).2 = .error HostError.mk) :
    (FuncsHandler.alloc ctx args).1.err ≠ none ∨
      (FuncsHandler.alloc ctx args).1 = ctx := by
  unfold FuncsHandler.alloc
  split
  · right; rfl
  · split
    · right; rfl
    · left; simp

theorem free_stores (ctx : Runtime) (args : List Value)
    (ht : (FuncsHandler.free ctx args).2 = .error HostError.mk) :
    (FuncsHandler.free ctx args).1.err ≠ none ∨
      (FuncsHandler.free ctx args).1 = ctx := by
  unfold FuncsHandler.free
  split
  · right; rfl
  · split
    · left; simp
    · right; rfl

theorem block_height_stores (ctx : Runtime) (args : List Value)
    (ht : (FuncsHandler.block_height ctx args).2 = .error HostError.mk) :
    (FuncsHandler.block_height ctx args).1.err ≠ none ∨
      (FuncsHandler.block_height ctx args).1 = ctx := by
  unfold FuncsHandler.block_height
  split
  · left; simp
  · right; rfl

theorem block_timestamp_stores (ctx : Runtime) (args : List Value)
    (ht : (FuncsHandler.block_timestamp ctx args).2 = .error HostError.mk) :
    (FuncsHandler.block_timestamp ctx args).1.err ≠ none ∨
      (FuncsHandler.block_timestamp ctx args).1 = ctx := by
  unfold FuncsHandler.block_timestamp
  split
  · left; simp
  · right; rfl

theorem source_stores (ctx : Runtime) (args : List Value)
    (ht : (FuncsHandler.source ctx args).2 = .error HostError.mk) :
    (FuncsHandler.source ctx args).1.err ≠ none ∨
      (FuncsHandler.source ctx args).1 = ctx := by
  unfold FuncsHandler.source at ht ⊢
  cases hp : pop_i32 convI32U32 args with
  | error e => right; simp [hp]
  | ok a =>
    obtain ⟨sptr, rest⟩ := a
    simp only [hp] at ht ⊢
    cases hs : ctx.ext.source with
    | error e => left; simp [hs]
    | ok src =>
      simp only [hs] at ht ⊢
      cases hw : ctx.write_output sptr src with
      | ok c2 => simp [hw] at ht
      | error e => left; simp [hw]

theorem reply_to_stores (ctx : Runtime) (args : List Value)
    (ht : (FuncsHandler.reply_to ctx args).2 = .error HostError.mk) :
    (FuncsHandler.reply_to ctx args).1.err ≠ none ∨
      (FuncsHandler.reply_to ctx args).1 = ctx := by
  unfold FuncsHandler.reply_to at ht ⊢
  cases hp : pop_i32 convI32U32 args with
  | error e => right; simp [hp]
  | ok a =>
    obtain ⟨dest, rest⟩ := a
    simp only [hp] at ht ⊢
    cases hr : ctx.ext.replyTo with
    | error e => left; simp [hr]
    | ok o =>
      cases o with
      | none => left; simp [hr]
      | some id =>
        simp only [hr] at ht ⊢
        cases hw : ctx.write_output dest id with
        | ok c2 => simp [hw] at ht
        | error e => left; simp [hw]

theorem leave_stores (ctx : Runtime) (args : List Value)
    (ht : (FuncsHandler.leave ctx args).2 = .error HostError.mk) :
    (FuncsHandler.leave ctx args).1.err ≠ none ∨
      (FuncsHandler.leave ctx args).1 = ctx := by
  left
  simp [FuncsHandler.leave]

theorem wait_stores (ctx : Runtime) (args : List Value)
    (ht : (FuncsHandler.wait ctx args).2 = .error HostError.mk) :
    (FuncsHandler.wait ctx args).1.err ≠ none ∨
      (FuncsHandler.wait ctx args).1 = ctx := by
  left
  simp [FuncsHandler.wait]

theorem wait_for_stores (ctx : Runtime) (args : List Value)
    (ht : (FuncsHandler.wait_for ctx args).2 = .error HostError.mk) :
    (FuncsHandler.wait_for ctx args).1.err ≠ none ∨
      (FuncsHandler.wait_for ctx args).1 = ctx := by
  unfold FuncsHandler.wait_for
  split
  · right; rfl
  · left; simp

theorem wait_up_to_stores (ctx : Runtime) (args : List Value)
    (ht : (FuncsHandler.wait_up_to ctx args).2 = .error HostError.mk) :
    (FuncsHandler.wait_up_to ctx args).1.err ≠ none ∨
      (FuncsHandler.wait_up_to ctx args).1 = ctx := by
  unfold FuncsHandler.wait_up_to
  split
  · right; rfl
  · left; simp

theorem forbidden_stores (ctx : Runtime) (args : List Value)
    (ht : (FuncsHandler.forbidden ctx args).2 = .error HostError.mk) :
    (FuncsHandler.forbidden ctx args).1.err ≠ none ∨
      (FuncsHandler.forbidden ctx args).1 = ctx := by
  left
  simp [FuncsHandler.forbidden]

/-- A context whose extension gas accessor fails. -/
def ctxGasAvailErr : Runtime :=
  { ext := { extOk with gasAvailable := .error (CoreErr.other "gas counter failure") },
    memory := [], err := none }

/-- C4 counterexample: gas_available (which takes no arguments, so no
    argument-decoding failure is involved) signals the trap while leaving
    the trap-context slot unwritten. -/
theorem claim_C4_counterexample :
    (FuncsHandler.gas_available ctxGasAvailErr []).2 = .error HostError.mk ∧
    (FuncsHandler.gas_available ctxGasAvailErr []).1.err = none :=
  ⟨rfl, rfl⟩

/-- C4 amended: every syscall handler except gas and gas_available either
    stores a structured FuncError in the trap context before signaling the
    trap, or returns the context completely unchanged — the latter happening
    exactly for argument-decoding failures and for return-value encoding
    overflows (size, block_height, block_timestamp); gas_available never
    stores an error and gas stores one only for gas-allowance exhaustion. -/
theorem claim_C4_trap_context :
    ∀ p ∈ handlersNoGas, ∀ (ctx : Runtime) (args : List Value),
      ctx.err = none → (p.2 ctx args).2 = .error HostError.mk →
      (p.2 ctx args).1.err ≠ none ∨ (p.2 ctx args).1 = ctx := by
  intro p hp ctx args _ ht
  fin_cases hp <;>
    first
      | exact mkHandler_stores _ _ ctx args ht
      | exact size_stores ctx args ht
      | exact exit_stores ctx args ht
      | exact exit_code_stores ctx args ht
      | exact alloc_stores ctx args ht
      | exact free_stores ctx args ht
      | exact block_height_stores ctx args ht
      | exact block_timestamp_stores ctx args ht
      | exact source_stores ctx args ht
      | exact reply_to_stores ctx args ht
      | exact leave_stores ctx args ht
      | exact wait_stores ctx args ht
      | exact wait_for_stores ctx args ht
      | exact wait_up_to_stores ctx args ht
      | exact forbidden_stores ctx args ht

/-- Witness for the amended C4: the forbidden handler on a concrete context
    traps with the trap context written. -/
theorem claim_C4_witness :
    (FuncsHandler.forbidden ctx0 []).1.err ≠ none ∨
      (FuncsHandler.forbidden ctx0 []).1 = ctx0 :=
  claim_C4_trap_context ("forbidden", FuncsHandler.forbidden)
    (by simp [handlersNoGas]) ctx0 [] rfl rfl
